import Mathlib
/-!
Verification of the code-execution service of this repository
(`apps/code_execution_service`): a shallow embedding, in Lean 4, of

* `app/execution/service.py` — `Judge0Service` (`_compare_outputs`,
  `_parse_status`, `submit_code`, `execute_code`),
* `app/execution/code_generator.py` — `CodeGenerator`
  (`generate_wrapper`, `get_template_code`, `get_helper_definitions`,
  and the Python conversion helpers `array_to_listnode`,
  `listnode_to_array`, `array_to_treenode`, `treenode_to_array`
  emitted by `_generate_python_wrapper`),

together with theorems settling the specification's claims about them.

Modelling conventions: Python/JSON data values are the inductive `PyVal`
(floats are outside the model: no claim exercises them, and the JSON
parser model rejects numeric literals with a fraction or exponent);
machine floats used for resource limits are modelled as exact rationals;
fallible Python code (a `raise`) is modelled with `Except`; `None` is
`Option.none`.
-/

set_option maxHeartbeats 1000000
/-- A Python value as produced by `json.loads` and carried through the
service (`input_data`, `expected_output`, `actual_output`).  Constructors
mirror Python's `None`, `bool`, `int`, `str`, `list`, `dict` (dicts keyed
by strings, as in JSON).  Python floats are outside the model. -/
inductive PyVal where
  | vnone : PyVal
  | vbool : Bool → PyVal
  | vint : Int → PyVal
  | vstr : String → PyVal
  | vlist : List PyVal → PyVal
  | vdict : List (String × PyVal) → PyVal
/-- Fuel-indexed Python equality (`==`) on `PyVal`.  Mirrors Python
semantics: `bool` is an `int` subclass, so `True == 1`; lists compare
elementwise; dicts compare as unordered key→value maps.  The fuel is only
a termination device; `pyEq` below instantiates it with a sufficient
bound. -/
def pyEqF : Nat → PyVal → PyVal → Bool
  | 0, _, _ => false
  | fuel + 1, a, b =>
    match a, b with
    | .vnone, .vnone => true
    | .vbool x, .vbool y => x == y
    | .vbool x, .vint y => (if x then (1 : Int) else 0) == y
    | .vint x, .vbool y => x == (if y then (1 : Int) else 0)
    | .vint x, .vint y => x == y
    | .vstr x, .vstr y => x == y
    | .vlist [], .vlist [] => true
    | .vlist (x :: xs), .vlist (y :: ys) =>
      pyEqF fuel x y && pyEqF fuel (.vlist xs) (.vlist ys)
    | .vlist _, .vlist _ => false
    | .vdict xs, .vdict ys =>
      xs.length == ys.length &&
        xs.all (fun kv =>
          match ys.find? (fun kw => kw.1 == kv.1) with
          | some kw => pyEqF fuel kv.2 kw.2
          | none => false)
    | _, _ => false

mutual
/-- Structural size of a `PyVal`, used as a sufficient fuel bound. -/
def pySize : PyVal → Nat
  | .vnone => 1
  | .vbool _ => 1
  | .vint _ => 1
  | .vstr _ => 1
  | .vlist xs => 1 + pySizeList xs
  | .vdict xs => 1 + pySizeDict xs
/-- Summed size of a list of values. -/
def pySizeList : List PyVal → Nat
  | [] => 0
  | x :: xs => pySize x + pySizeList xs + 1
/-- Summed size of dict entries. -/
def pySizeDict : List (String × PyVal) → Nat
  | [] => 0
  | kv :: xs => pySize kv.2 + pySizeDict xs + 1

end
/-- Python `==` on modelled values (total; the fuel bound
`pySize a + pySize b + 1` always suffices). -/
def pyEq (a b : PyVal) : Bool := pyEqF (pySize a + pySize b + 1) a b
/-- The characters Python's `str.strip()` removes (ASCII whitespace;
Unicode whitespace beyond ASCII is outside the model). -/
def isPySpace (c : Char) : Bool :=
  c = ' ' || c = '\t' || c = '\n' || c = '\r' ||
    c = Char.ofNat 11 || c = Char.ofNat 12
/-- Python `str.strip()`: drop leading and trailing whitespace. -/
def pyStrip (s : String) : String :=
  ⟨((s.data.dropWhile isPySpace).reverse.dropWhile isPySpace).reverse⟩
/-- Escape one character for Python `repr` of a string with quote
character `q` (backslash, the quote itself, and common control escapes;
`\xNN` escapes of other non-printables are outside the model). -/
def pyReprEscChar (q : Char) (c : Char) : String :=
  if c = Char.ofNat 92 then ⟨[Char.ofNat 92, Char.ofNat 92]⟩
  else if c = q then ⟨[Char.ofNat 92, q]⟩
  else if c = '\n' then ⟨[Char.ofNat 92, 'n']⟩
  else if c = '\r' then ⟨[Char.ofNat 92, 'r']⟩
  else if c = '\t' then ⟨[Char.ofNat 92, 't']⟩
  else ⟨[c]⟩
/-- Python `repr` of a string: single-quoted, switching to double quotes
when the text contains a single quote but no double quote. -/
def pyReprStr (s : String) : String :=
  let sq := Char.ofNat 39
  let dq := Char.ofNat 34
  let q := if s.data.contains sq && !(s.data.contains dq) then dq else sq
  ⟨[q]⟩ ++ String.join (s.data.map (pyReprEscChar q)) ++ ⟨[q]⟩
/-- Fuel-indexed Python `repr` of a value (the form `str` uses for
elements nested in containers): `None`, `True`/`False`, decimal integers,
quoted strings, `[...]` lists and `\x7b...\x7d` dicts with `, `
separators.  Fuel is a termination device; a value's depth never exceeds
its `pySize`, so `pyRepr` below always supplies enough. -/
def pyReprF : Nat → PyVal → String
  | 0, _ => ""
  | fuel + 1, v =>
    match v with
    | .vnone => "None"
    | .vbool true => "True"
    | .vbool false => "False"
    | .vint n => toString n
    | .vstr s => pyReprStr s
    | .vlist xs => "[" ++ ", ".intercalate (xs.map (pyReprF fuel)) ++ "]"
    | .vdict xs =>
      ⟨[Char.ofNat 123]⟩ ++
        ", ".intercalate
          (xs.map (fun kv => pyReprStr kv.1 ++ ": " ++ pyReprF fuel kv.2)) ++
        ⟨[Char.ofNat 125]⟩
/-- Python `repr` of a value. -/
def pyRepr (v : PyVal) : String := pyReprF (pySize v) v
/-- Python `str()` of a value: like `repr`, except a top-level string is
returned verbatim (unquoted). -/
def pyStrTop : PyVal → String
  | .vstr s => s
  | v => pyRepr v
/-- Whitespace `json.loads` skips between tokens. -/
def isJsonWs (c : Char) : Bool :=
  c = ' ' || c = '\t' || c = '\n' || c = '\r'
/-- Value of a hexadecimal digit, for `\uXXXX` escapes. -/
def hexVal (c : Char) : Option Nat :=
  if c.isDigit then some (c.toNat - 48)
  else if 'a' ≤ c && c ≤ 'f' then some (c.toNat - 87)
  else if 'A' ≤ c && c ≤ 'F' then some (c.toNat - 55)
  else none
/-- Translate a single-character JSON escape (`\" \\ \/ \b \f \n \r \t`). -/
def jsonEsc (c : Char) : Option Char :=
  if c = Char.ofNat 34 then some (Char.ofNat 34)
  else if c = Char.ofNat 92 then some (Char.ofNat 92)
  else if c = '/' then some '/'
  else if c = 'b' then some (Char.ofNat 8)
  else if c = 'f' then some (Char.ofNat 12)
  else if c = 'n' then some '\n'
  else if c = 'r' then some '\r'
  else if c = 't' then some '\t'
  else none
/-- Parse the body of a JSON string literal, after its opening quote,
returning the decoded text and the input left after the closing quote.
Raw control characters are rejected, as in strict-mode `json.loads`;
`\uXXXX` decodes to the code point (surrogate-pair recombination is
outside the model). -/
def parseJStr : List Char → Option (String × List Char)
  | [] => none
  | c :: rest =>
    if c = Char.ofNat 34 then some ("", rest)
    else if c = Char.ofNat 92 then
      match rest with
      | [] => none
      | e :: rest2 =>
        if e = 'u' then
          match rest2 with
          | h1 :: h2 :: h3 :: h4 :: rest3 =>
            match hexVal h1, hexVal h2, hexVal h3, hexVal h4 with
            | some v1, some v2, some v3, some v4 =>
              match parseJStr rest3 with
              | some (s, r) =>
                some (⟨[Char.ofNat (((v1 * 16 + v2) * 16 + v3) * 16 + v4)]⟩ ++ s, r)
              | none => none
            | _, _, _, _ => none
          | _ => none
        else
          match jsonEsc e with
          | some ec =>
            match parseJStr rest2 with
            | some (s, r) => some (⟨[ec]⟩ ++ s, r)
            | none => none
          | none => none
    else if c.toNat < 32 then none
    else
      match parseJStr rest with
      | some (s, r) => some (⟨[c]⟩ ++ s, r)
      | none => none
/-- Decimal value of a digit string. -/
def digitsToNat (ds : List Char) : Nat :=
  ds.foldl (fun a c => a * 10 + (c.toNat - 48)) 0
/-- Parse a JSON integer literal (optional minus, digits, no redundant
leading zero).  A literal continuing with `.`/`e`/`E` is a Python float,
which is outside the model, so it is rejected here. -/
def parseJNum (cs : List Char) : Option (Int × List Char) :=
  let p := match cs with
    | c :: r => if c = '-' then (true, r) else (false, cs)
    | [] => (false, cs)
  let ds := p.2.takeWhile Char.isDigit
  let rest := p.2.dropWhile Char.isDigit
  if ds.isEmpty then none
  else if ds.length > 1 && ds.headD '0' = '0' then none
  else
    match rest with
    | c :: _ =>
      if c = '.' || c = 'e' || c = 'E' then none
      else some ((if p.1 then -(digitsToNat ds : Int) else (digitsToNat ds : Int)), rest)
    | [] => some ((if p.1 then -(digitsToNat ds : Int) else (digitsToNat ds : Int)), rest)
/-- Insert key `k` with value `v` into an association list the way a
Python dict assignment does: overwrite in place if the key exists
(keeping its original position), append otherwise. -/
def dictUpsert (l : List (String × PyVal)) (k : String) (v : PyVal) :
    List (String × PyVal) :=
  if l.any (fun kv => kv.1 == k) then
    l.map (fun kv => if kv.1 == k then (k, v) else kv)
  else l ++ [(k, v)]

mutual
/-- Recursive-descent JSON value parser modelling `json.loads`, over a
character list with explicit fuel (the fuel is a termination device only;
`jsonLoads` supplies a bound that always suffices).  Returns the value
and the unconsumed input. -/
def parseJVal : Nat → List Char → Option (PyVal × List Char)
  | 0, _ => none
  | fuel + 1, cs0 =>
    let cs := cs0.dropWhile isJsonWs
    match cs with
    | [] => none
    | c :: rest =>
      if c = 'n' then
        match rest with
        | 'u' :: 'l' :: 'l' :: r => some (.vnone, r)
        | _ => none
      else if c = 't' then
        match rest with
        | 'r' :: 'u' :: 'e' :: r => some (.vbool true, r)
        | _ => none
      else if c = 'f' then
        match rest with
        | 'a' :: 'l' :: 's' :: 'e' :: r => some (.vbool false, r)
        | _ => none
      else if c = Char.ofNat 34 then
        match parseJStr rest with
        | some (s, r) => some (.vstr s, r)
        | none => none
      else if c = '[' then
        match rest.dropWhile isJsonWs with
        | ']' :: r2 => some (.vlist [], r2)
        | _ =>
          match parseJArr fuel rest with
          | some (vs, r) => some (.vlist vs, r)
          | none => none
      else if c = Char.ofNat 123 then
        match rest.dropWhile isJsonWs with
        | c2 :: r2 =>
          if c2 = Char.ofNat 125 then some (.vdict [], r2)
          else
            match parseJObj fuel rest with
            | some (kvs, r) =>
              some (.vdict (kvs.foldl (fun d kv => dictUpsert d kv.1 kv.2) []), r)
            | none => none
        | [] => none
      else
        match parseJNum cs with
        | some (n, r) => some (.vint n, r)
        | none => none
/-- Elements of a non-empty JSON array, after the opening bracket. -/
def parseJArr : Nat → List Char → Option (List PyVal × List Char)
  | 0, _ => none
  | fuel + 1, cs =>
    match parseJVal fuel cs with
    | some (v, r1) =>
      match r1.dropWhile isJsonWs with
      | ',' :: r3 =>
        match parseJArr fuel r3 with
        | some (vs, r4) => some (v :: vs, r4)
        | none => none
      | ']' :: r3 => some ([v], r3)
      | _ => none
    | none => none
/-- Members of a non-empty JSON object, after the opening brace. -/
def parseJObj : Nat → List Char → Option (List (String × PyVal) × List Char)
  | 0, _ => none
  | fuel + 1, cs =>
    match cs.dropWhile isJsonWs with
    | c :: r0 =>
      if c = Char.ofNat 34 then
        match parseJStr r0 with
        | some (k, r1) =>
          match r1.dropWhile isJsonWs with
          | ':' :: r2 =>
            match parseJVal fuel r2 with
            | some (v, r3) =>
              match r3.dropWhile isJsonWs with
              | ',' :: r4 =>
                match parseJObj fuel r4 with
                | some (kvs, r5) => some ((k, v) :: kvs, r5)
                | none => none
              | c5 :: r4 =>
                if c5 = Char.ofNat 125 then some ([(k, v)], r4) else none
              | [] => none
            | none => none
          | _ => none
        | none => none
      else none
    | [] => none

end
/-- Model of `json.loads`: parse a complete JSON document; trailing input other
than whitespace is an error (Python raises `JSONDecodeError`, modelled
as `none`). -/
def jsonLoads (s : String) : Option PyVal :=
  match parseJVal (2 * s.length + 2) s.data with
  | some (v, rest) => if rest.dropWhile isJsonWs = [] then some v else none
  | none => none
/-- Model of `Judge0Service._compare_outputs` (service.py lines 245–253): try to
decode `actual` as JSON (Python strips before parsing — `json.loads`
itself also tolerates surrounding whitespace) and compare structurally
with `==`; on decode failure fall back to comparing the stripped actual
text with the stripped `str()` of the expected value. -/
def compare_outputs (actual : String) (expected : PyVal) : Bool :=
  match jsonLoads (pyStrip actual) with
  | some parsed => pyEq parsed expected
  | none => pyStrip actual == pyStrip (pyStrTop expected)
/-- Singly-linked list node, as defined by the `ListNode` class the
Python wrapper emits (code_generator.py lines 134–140).  Node values are
modelled as integers, the element type the generator's data model uses
for linked lists. -/
inductive ListNode where
  | mk (val : Int) (next : Option ListNode)
/-- The emitted `array_to_listnode` (code_generator.py lines 156–164):
an empty array gives `None`; otherwise a head node is built from the
first element and the loop appends one node per remaining element.  The
Python loop builds the same chain this structural recursion builds. -/
def array_to_listnode : List Int → Option ListNode
  | [] => none
  | v :: rest => some (ListNode.mk v (array_to_listnode rest))
/-- The emitted `listnode_to_array` (code_generator.py lines 166–172):
walk `next` pointers from the head, collecting values. -/
def listnode_to_array : Option ListNode → List Int
  | none => []
  | some (ListNode.mk v next) => v :: listnode_to_array next
/-- Binary tree node, as defined by the `TreeNode` class the Python
wrapper emits (code_generator.py lines 143–150).  `val` is `Option Int`
because Python's `array_to_treenode` stores `arr[0]` in the root
unconditionally, so a root decoded from a `null` entry holds `None`. -/
inductive TreeNode where
  | mk (val : Option Int) (left : Option TreeNode) (right : Option TreeNode)
/-- Value stored in a tree node. -/
def TreeNode.val : TreeNode → Option Int
  | .mk v _ _ => v
/-- Left child. -/
def TreeNode.left : TreeNode → Option TreeNode
  | .mk _ l _ => l
/-- Right child. -/
def TreeNode.right : TreeNode → Option TreeNode
  | .mk _ _ r => r

@[simp] theorem TreeNode.val_mk (v : Option Int) (l r : Option TreeNode) :
    (TreeNode.mk v l r).val = v := rfl

@[simp] theorem TreeNode.left_mk (v : Option Int) (l r : Option TreeNode) :
    (TreeNode.mk v l r).left = l := rfl

@[simp] theorem TreeNode.right_mk (v : Option Int) (l r : Option TreeNode) :
    (TreeNode.mk v l r).right = r := rfl
/-- Weight of a queue entry of the serialization loop: the exact number
of loop iterations the entry will cause, used as termination measure. -/
def wOpt : Option TreeNode → Nat
  | none => 1
  | some (.mk _ l r) => 1 + wOpt l + wOpt r
/-- Total weight of a serialization queue. -/
def qWeight (q : List (Option TreeNode)) : Nat := (q.map wOpt).sum
/-- The queue loop of the emitted `treenode_to_array`
(code_generator.py lines 199–208): pop the front entry; a real node
contributes its value and enqueues both children (possibly `None`), a
`None` entry contributes a `None` marker.  Each iteration pops exactly
one entry, so the queue's total `wOpt` weight decreases by one per
step. -/
def bfsSer : List (Option TreeNode) → List (Option Int)
  | [] => []
  | none :: q => none :: bfsSer q
  | some (.mk v l r) :: q => v :: bfsSer (q ++ [l, r])
termination_by q => qWeight q
decreasing_by
  · simp [qWeight, wOpt]
  · simp [qWeight, wOpt]
    omega
/-- The trailing-`None` trimming loop of `treenode_to_array`
(code_generator.py lines 210–211): `while result and result[-1] is
None: result.pop()`. -/
def rtrimNone (l : List (Option Int)) : List (Option Int) :=
  ((l.reverse.dropWhile Option.isNone)).reverse
/-- The emitted `treenode_to_array` (code_generator.py lines 196–212):
empty for `None`, otherwise the level-order serialization of the
single-node queue with trailing `None` markers removed. -/
def treenode_to_array : Option TreeNode → List (Option Int)
  | none => []
  | some root => rtrimNone (bfsSer [some root])
/-- One step of child attachment: a `None` encoding entry yields no
child (`node.left`/`node.right` keeps its `None` default); a non-`None`
entry consumes the next already-built subtree. -/
def pickChild : Option Int → List TreeNode → Option TreeNode × List TreeNode
  | none, ts => (none, ts)
  | some _, ts => (ts.head?, ts.drop 1)
/-- Rebuild the nodes of one queue level of the emitted
`array_to_treenode`: for each pending node value, read its two child
entries from the encoding (a missing entry behaves as `None`, matching
the `i < len(arr)` bounds checks) and attach the corresponding
already-built subtrees in order. -/
def attachChildren :
    List (Option Int) → List (Option Int) → List TreeNode → List TreeNode
  | [], _, _ => []
  | v :: vs, enc, ts =>
    let p₁ := pickChild (enc.headD none) ts
    let p₂ := pickChild ((enc.drop 1).headD none) p₁.2
    TreeNode.mk v p₁.1 p₂.1 :: attachChildren vs (enc.drop 2) p₂.2
/-- Functional rendering of the queue loop of the emitted
`array_to_treenode` (code_generator.py lines 178–194).  The Python loop
pops nodes in FIFO order, consumes exactly two encoding positions per
popped node (`i` advances by 2 regardless of `None` markers), creates a
child only for a non-`None` entry, and stops when the queue is empty or
the array is exhausted (nodes never popped keep `None` children; a
missing second entry behaves as `None`).  Batched by queue levels this
is: the pending values consume the next `2·(number pending)` entries,
the non-`None` entries among them are the next level's pending node
values, and the recursively built subtrees are attached in order. -/
def buildLevels (vals : List (Option Int)) (s : List (Option Int)) :
    List TreeNode :=
  match vals with
  | [] => []
  | _ :: _ =>
    let k := 2 * vals.length
    let enc := s.take k
    let nextVals := enc.filter Option.isSome
    attachChildren vals enc (buildLevels nextVals (s.drop k))
termination_by s.length + vals.length
decreasing_by
  have h₁ : (List.filter Option.isSome (s.take (2 * vals.length))).length ≤
      (s.take (2 * vals.length)).length := List.length_filter_le _ _
  simp only [List.length_drop]
  simp_all
  omega
/-- The emitted `array_to_treenode` (code_generator.py lines 178–194):
`None` for an empty array; otherwise the root holds the first entry and
the queue loop attaches children from the remaining entries.
`buildLevels [arr[0]] rest` always returns exactly one tree, so the
`headD` default is never used. -/
def array_to_treenode : List (Option Int) → Option TreeNode
  | [] => none
  | e :: rest => some ((buildLevels [e] rest).headD (TreeNode.mk e none none))
/-- Serialization entry contributed by one queue element. -/
def entOf : Option TreeNode → Option Int
  | none => none
  | some n => n.val
/-- Serialization entries of a whole queue. -/
def ents (q : List (Option TreeNode)) : List (Option Int) := q.map entOf
/-- Queue entries pushed by one popped element. -/
def chlOf : Option TreeNode → List (Option TreeNode)
  | none => []
  | some n => [n.left, n.right]
/-- Queue entries pushed while a whole queue is drained once. -/
def chl (q : List (Option TreeNode)) : List (Option TreeNode) :=
  (q.map chlOf).join
/-- Child entries of a forest of real nodes, in level order. -/
def kids (f : List TreeNode) : List (Option TreeNode) :=
  (f.map (fun n => [n.left, n.right])).join
/-- Weight of a forest of real nodes. -/
def fW (f : List TreeNode) : Nat := (f.map (fun n => wOpt (some n))).sum
/-- Trees whose every node stores an integer value (no `None`-valued
nodes): the domain on which the level-order encoding is faithful. -/
inductive AllInt : Option TreeNode → Prop where
  | none : AllInt none
  | node (v : Int) (l r : Option TreeNode) :
      AllInt l → AllInt r → AllInt (some (TreeNode.mk (some v) l r))
/-- Escape one character for `json.dumps` output (backslash, quote and
the common control escapes; `\uXXXX` escaping of other control and
non-ASCII characters is outside the model). -/
def jsonDumpEscChar (c : Char) : String :=
  if c = Char.ofNat 92 then ⟨[Char.ofNat 92, Char.ofNat 92]⟩
  else if c = Char.ofNat 34 then ⟨[Char.ofNat 92, Char.ofNat 34]⟩
  else if c = '\n' then ⟨[Char.ofNat 92, 'n']⟩
  else if c = '\r' then ⟨[Char.ofNat 92, 'r']⟩
  else if c = '\t' then ⟨[Char.ofNat 92, 't']⟩
  else ⟨[c]⟩
/-- Model of `json.dumps` of a string. -/
def jsonDumpStr (s : String) : String :=
  ⟨[Char.ofNat 34]⟩ ++ String.join (s.data.map jsonDumpEscChar) ++ ⟨[Char.ofNat 34]⟩
/-- Fuel-indexed `json.dumps` (default separators `", "` and `": "`).
Fuel is a termination device; `jsonDumps` supplies enough. -/
def jsonDumpsF : Nat → PyVal → String
  | 0, _ => ""
  | fuel + 1, v =>
    match v with
    | .vnone => "null"
    | .vbool true => "true"
    | .vbool false => "false"
    | .vint n => toString n
    | .vstr s => jsonDumpStr s
    | .vlist xs => "[" ++ ", ".intercalate (xs.map (jsonDumpsF fuel)) ++ "]"
    | .vdict xs =>
      ⟨[Char.ofNat 123]⟩ ++
        ", ".intercalate
          (xs.map (fun kv => jsonDumpStr kv.1 ++ ": " ++ jsonDumpsF fuel kv.2)) ++
        ⟨[Char.ofNat 125]⟩
/-- Model of `json.dumps` of a value. -/
def jsonDumps (v : PyVal) : String := jsonDumpsF (pySize v) v
/-- A well-formed `function_signature` dict as `generate_wrapper` reads
it: `function_name`, `arguments` (a list of dicts with `name` and
`type`, modelled as pairs), and `return_type`. -/
structure FunctionSig where
  function_name : String
  arguments : List (String × String)
  return_type : String
/-- Model of `needs_listnode` as computed in every `_generate_*_wrapper` and in
`get_helper_definitions`: some argument of type `ListNode`, or a
`ListNode` return type. -/
def needs_listnode (sig : FunctionSig) : Bool :=
  sig.arguments.any (fun a => a.2 == "ListNode") || sig.return_type == "ListNode"
/-- Model of `needs_treenode`: some argument of type `TreeNode`, or a `TreeNode`
return type. -/
def needs_treenode (sig : FunctionSig) : Bool :=
  sig.arguments.any (fun a => a.2 == "TreeNode") || sig.return_type == "TreeNode"
/-- The `TYPE_MAPPINGS` table (code_generator.py lines 27–76). -/
def TYPE_MAPPINGS : List (String × List (String × String)) :=
  [ ("int", [("python", "int"), ("javascript", "number"), ("java", "int"), ("cpp", "int")]),
    ("int[]", [("python", "List[int]"), ("javascript", "number[]"), ("java", "int[]"),
      ("cpp", "vector<int>")]),
    ("string", [("python", "str"), ("javascript", "string"), ("java", "String"),
      ("cpp", "string")]),
    ("string[]", [("python", "List[str]"), ("javascript", "string[]"), ("java", "String[]"),
      ("cpp", "vector<string>")]),
    ("boolean", [("python", "bool"), ("javascript", "boolean"), ("java", "boolean"),
      ("cpp", "bool")]),
    ("ListNode", [("python", "Optional[ListNode]"), ("javascript", "ListNode"),
      ("java", "ListNode"), ("cpp", "ListNode*")]),
    ("TreeNode", [("python", "Optional[TreeNode]"), ("javascript", "TreeNode"),
      ("java", "TreeNode"), ("cpp", "TreeNode*")]),
    ("void", [("python", "None"), ("javascript", "void"), ("java", "void"), ("cpp", "void")]) ]
/-- Model of `TYPE_MAPPINGS.get(t, \x7b\x7d).get(lang, t)`: the mapped
language-specific type, defaulting to the generic type itself. -/
def mapped_type (t lang : String) : String :=
  match TYPE_MAPPINGS.find? (fun row => row.1 == t) with
  | some row =>
    match row.2.find? (fun kv => kv.1 == lang) with
    | some kv => kv.2
    | none => t
  | none => t
/-- The `ListNode` class text emitted into Python wrappers
(code_generator.py lines 134–140). -/
def py_listnode_class : String :=
  "\nclass ListNode:\n    def __init__(self, val=0, next=None):\n        self.val = val\n        self.next = next\n\n"
/-- The `TreeNode` class text emitted into Python wrappers
(code_generator.py lines 143–150). -/
def py_treenode_class : String :=
  "\nclass TreeNode:\n    def __init__(self, val=0, left=None, right=None):\n        self.val = val\n        self.left = left\n        self.right = right\n\n"
/-- The linked-list conversion helpers emitted into Python wrappers
(code_generator.py lines 155–174); their semantics is modelled by
`array_to_listnode`/`listnode_to_array` above. -/
def py_listnode_conv : String :=
  "\ndef array_to_listnode(arr):\n    if not arr:\n        return None\n    head = ListNode(arr[0])\n    current = head\n    for val in arr[1:]:\n        current.next = ListNode(val)\n        current = current.next\n    return head\n\ndef listnode_to_array(head):\n    result = []\n    current = head\n    while current:\n        result.append(current.val)\n        current = current.next\n    return result\n\n"
/-- The tree conversion helpers emitted into Python wrappers
(code_generator.py lines 177–214); their semantics is modelled by
`array_to_treenode`/`treenode_to_array` above. -/
def py_treenode_conv : String :=
  "\ndef array_to_treenode(arr):\n    if not arr:\n        return None\n    root = TreeNode(arr[0])\n    queue = [root]\n    i = 1\n    while queue and i < len(arr):\n        node = queue.pop(0)\n        if i < len(arr) and arr[i] is not None:\n            node.left = TreeNode(arr[i])\n            queue.append(node.left)\n        i += 1\n        if i < len(arr) and arr[i] is not None:\n            node.right = TreeNode(arr[i])\n            queue.append(node.right)\n        i += 1\n    return root\n\ndef treenode_to_array(root):\n    if not root:\n        return []\n    result = []\n    queue = [root]\n    while queue:\n        node = queue.pop(0)\n        if node:\n            result.append(node.val)\n            queue.append(node.left)\n            queue.append(node.right)\n        else:\n            result.append(None)\n    # Remove trailing None values\n    while result and result[-1] is None:\n        result.pop()\n    return result\n\n"
/-- One argument-extraction line of the Python wrapper
(code_generator.py lines 219–229). -/
def py_arg_conversion (arg : String × String) : String :=
  if arg.2 = "ListNode" then
    "    " ++ arg.1 ++ " = array_to_listnode(input_data[\"" ++ arg.1 ++ "\"])"
  else if arg.2 = "TreeNode" then
    "    " ++ arg.1 ++ " = array_to_treenode(input_data[\"" ++ arg.1 ++ "\"])"
  else
    "    " ++ arg.1 ++ " = input_data[\"" ++ arg.1 ++ "\"]"
/-- Result-conversion line of the Python wrapper
(code_generator.py lines 235–240). -/
def py_result_conversion (ret : String) : String :=
  if ret = "ListNode" then ("result = listnode_to_array(result)")
  else if ret = "TreeNode" then ("result = treenode_to_array(result)")
  else ("")
/-- Model of `CodeGenerator._generate_python_wrapper` (code_generator.py lines
114–257): helper classes and conversion functions as needed, the user's
code, and a fixed `__main__` block; stdin is the JSON dump of the input
record; no archive. -/
def generate_python_wrapper (user_code : String) (sig : FunctionSig)
    (input_data : List (String × PyVal)) : String × String × Option String :=
  let helper_code :=
    (if needs_listnode sig then py_listnode_class else ("")) ++
      (if needs_treenode sig then py_treenode_class else (""))
  let conversion_functions :=
    (if needs_listnode sig then py_listnode_conv else ("")) ++
      (if needs_treenode sig then py_treenode_conv else (""))
  let conversion_code := "\n".intercalate (sig.arguments.map py_arg_conversion)
  let args_str := ", ".intercalate (sig.arguments.map (fun a => a.1))
  let wrapper_code :=
    helper_code ++ conversion_functions ++ user_code ++
      "\n\nif __name__ == \"__main__\":\n    import json\n    import sys\n    \n    input_data = json.loads(sys.stdin.read())\n" ++
      conversion_code ++
      "\n    solution = Solution()\n    result = solution." ++ sig.function_name ++
      "(" ++ args_str ++ ")\n    " ++ py_result_conversion sig.return_type ++
      "\n    print(json.dumps(result))\n"
  (wrapper_code, jsonDumps (.vdict input_data), none)
/-- The `ListNode` class text emitted into JavaScript wrappers
(code_generator.py lines 283–291). -/
def js_listnode_class : String :=
  "\nclass ListNode \x7b\n    constructor(val = 0, next = null) \x7b\n        this.val = val;\n        this.next = next;\n    \x7d\n\x7d\n\n"
/-- The `TreeNode` class text emitted into JavaScript wrappers
(code_generator.py lines 294–302). -/
def js_treenode_class : String :=
  "\nclass TreeNode \x7b\n    constructor(val = 0, left = null, right = null) \x7b\n        this.val = val;\n        this.left = left;\n        this.right = right;\n    \x7d\n\x7d\n\n"
/-- The linked-list conversion helpers emitted into JavaScript wrappers
(code_generator.py lines 308–330). -/
def js_listnode_conv : String :=
  "\nfunction arrayToListNode(arr) \x7b\n    if (!arr || arr.length === 0) return null;\n    const head = new ListNode(arr[0]);\n    let current = head;\n    for (let i = 1; i < arr.length; i++) \x7b\n        current.next = new ListNode(arr[i]);\n        current = current.next;\n    \x7d\n    return head;\n\x7d\n\nfunction listNodeToArray(head) \x7b\n    const result = [];\n    let current = head;\n    while (current) \x7b\n        result.push(current.val);\n        current = current.next;\n    \x7d\n    return result;\n\x7d\n\n"
/-- The tree conversion helpers emitted into JavaScript wrappers
(code_generator.py lines 333–376). -/
def js_treenode_conv : String :=
  "\nfunction arrayToTreeNode(arr) \x7b\n    if (!arr || arr.length === 0) return null;\n    const root = new TreeNode(arr[0]);\n    const queue = [root];\n    let i = 1;\n    while (queue.length > 0 && i < arr.length) \x7b\n        const node = queue.shift();\n        if (i < arr.length && arr[i] !== null) \x7b\n            node.left = new TreeNode(arr[i]);\n            queue.push(node.left);\n        \x7d\n        i++;\n        if (i < arr.length && arr[i] !== null) \x7b\n            node.right = new TreeNode(arr[i]);\n            queue.push(node.right);\n        \x7d\n        i++;\n    \x7d\n    return root;\n\x7d\n\nfunction treeNodeToArray(root) \x7b\n    if (!root) return [];\n    const result = [];\n    const queue = [root];\n    while (queue.length > 0) \x7b\n        const node = queue.shift();\n        if (node) \x7b\n            result.push(node.val);\n            queue.push(node.left);\n            queue.push(node.right);\n        \x7d else \x7b\n            result.push(null);\n        \x7d\n    \x7d\n    // Remove trailing null values\n    while (result.length > 0 && result[result.length - 1] === null) \x7b\n        result.pop();\n    \x7d\n    return result;\n\x7d\n\n"
/-- One argument-extraction line of the JavaScript wrapper
(code_generator.py lines 381–397). -/
def js_arg_conversion (arg : String × String) : String :=
  if arg.2 = "ListNode" then
    "const " ++ arg.1 ++ " = arrayToListNode(inputData." ++ arg.1 ++ ");"
  else if arg.2 = "TreeNode" then
    "const " ++ arg.1 ++ " = arrayToTreeNode(inputData." ++ arg.1 ++ ");"
  else
    "const " ++ arg.1 ++ " = inputData." ++ arg.1 ++ ";"
/-- Result line of the JavaScript wrapper (code_generator.py lines
403–414). -/
def js_result_line (sig : FunctionSig) (args_str : String) : String :=
  if sig.return_type = "ListNode" then
    "let result = " ++ sig.function_name ++ "(" ++ args_str ++ ");\n" ++
      "result = listNodeToArray(result);"
  else if sig.return_type = "TreeNode" then
    "let result = " ++ sig.function_name ++ "(" ++ args_str ++ ");\n" ++
      "result = treeNodeToArray(result);"
  else
    "const result = " ++ sig.function_name ++ "(" ++ args_str ++ ");"
/-- Model of `CodeGenerator._generate_javascript_wrapper` (code_generator.py
lines 259–427): helpers as needed, the user's code, and a fixed stdin
main block; no archive. -/
def generate_javascript_wrapper (user_code : String) (sig : FunctionSig)
    (input_data : List (String × PyVal)) : String × String × Option String :=
  let helper_code :=
    (if needs_listnode sig then js_listnode_class else ("")) ++
      (if needs_treenode sig then js_treenode_class else (""))
  let conversion_functions :=
    (if needs_listnode sig then js_listnode_conv else ("")) ++
      (if needs_treenode sig then js_treenode_conv else (""))
  let conversion_code := "\n".intercalate (sig.arguments.map js_arg_conversion)
  let args_str := ", ".intercalate (sig.arguments.map (fun a => a.1))
  let wrapper_code :=
    helper_code ++ conversion_functions ++ user_code ++
      "\n\n// Read all stdin synchronously\nconst input = require(\x27fs\x27).readFileSync(\x27/dev/stdin\x27, \x27utf-8\x27);\nconst inputData = JSON.parse(input);\n" ++
      conversion_code ++ "\n" ++ js_result_line sig args_str ++
      "\nconsole.log(JSON.stringify(result));\n"
  (wrapper_code, jsonDumps (.vdict input_data), none)
/-- Little-endian 4-byte length, for the modelled archive container. -/
def natLE (n : Nat) : List Nat :=
  [n % 256, (n / 256) % 256, (n / 65536) % 256, (n / 16777216) % 256]
/-- Bytes of a string (code points; UTF-8 of non-ASCII text is outside
the model — archive contents are ASCII program text). -/
def strBytes (s : String) : List Nat := s.data.map Char.toNat
/-- Modelled from the source at the container boundary:
`zipfile.ZipFile(..., 'w', ZIP_DEFLATED)` with one `writestr` per entry
produces a binary archive holding exactly the given named entries
(code_generator.py lines 685–691 and 930–936).  The byte-level zip and
DEFLATE formats are not re-derived; the model serializes the entries
length-prefixed in order.  No claim observes the archive's bytes — only
its presence. -/
def zipArchive (entries : List (String × List Nat)) : List Nat :=
  (entries.map (fun e => natLE e.1.length ++ strBytes e.1 ++ natLE e.2.length ++ e.2)).join
/-- The base64 alphabet. -/
def b64Alphabet : String :=
  "ABCDEFGHIJKLMNOPQRSTUVWXYZabcdefghijklmnopqrstuvwxyz0123456789+/"
/-- Character of one 6-bit group. -/
def b64Char (n : Nat) : Char := b64Alphabet.data.getD n 'A'
/-- Model of `base64.b64encode(...).decode('utf-8')`: standard base64 with `=`
padding. -/
def base64Encode : List Nat → String
  | [] => ""
  | [a] => ⟨[b64Char (a / 4 % 64), b64Char (a % 4 * 16), '=', '=']⟩
  | [a, b] =>
    ⟨[b64Char (a / 4 % 64), b64Char (a % 4 * 16 + b / 16 % 16), b64Char (b % 16 * 4), '=']⟩
  | a :: b :: c :: rest =>
    ⟨[b64Char (a / 4 % 64), b64Char (a % 4 * 16 + b / 16 % 16),
      b64Char (b % 16 * 4 + c / 64 % 4), b64Char (c % 64)]⟩ ++ base64Encode rest
/-- Compile script bundled for Java submissions (code_generator.py
lines 667–669). -/
def java_compile_script : String :=
  "#!/bin/bash\n/usr/local/openjdk13/bin/javac -classpath \".:gson-2.11.0.jar\" Main.java\n"
/-- Run script bundled for Java submissions (code_generator.py lines
672–674). -/
def java_run_script : String :=
  "#!/bin/bash\n/usr/local/openjdk13/bin/java -classpath \".:gson-2.11.0.jar\" Main\n"
/-- Condensed model of the `Main.java` text assembled by
`_generate_java_wrapper` (code_generator.py lines 429–664): GSON import,
helper classes when the signature needs them, the user's code, and a
`Main` class whose `main` parses each argument from stdin JSON, calls
`solution.<function_name>(...)` and prints the JSON result.  The literal
Java template text is condensed here — no claim observes it; the
dependence on `user_code` and the signature is kept. -/
def java_main_source (user_code : String) (sig : FunctionSig) : String :=
  "import com.google.gson.*;\n" ++
    (if needs_listnode sig then
      "class ListNode \x7b int val; ListNode next; \x7d\n" else ("")) ++
    (if needs_treenode sig then
      "class TreeNode \x7b int val; TreeNode left; TreeNode right; \x7d\n" else ("")) ++
    user_code ++
    "\npublic class Main \x7b public static void main(String[] args) \x7b /* parse " ++
    ", ".intercalate (sig.arguments.map (fun a => a.1)) ++
    "; print new Gson().toJson(solution." ++ sig.function_name ++ "(...)) */ \x7d \x7d\n"
/-- Model of `CodeGenerator._generate_java_wrapper` (code_generator.py lines
429–698): bundles `Main.java`, compile and run scripts and the GSON jar
(read from disk — its bytes are a parameter of the model) into a
base64-encoded zip; the returned source code is the empty string. -/
def generate_java_wrapper (gson_jar : List Nat) (user_code : String) (sig : FunctionSig)
    (input_data : List (String × PyVal)) : String × String × Option String :=
  let archive := zipArchive
    [ ("Main.java", strBytes (java_main_source user_code sig)),
      ("compile", strBytes java_compile_script),
      ("run", strBytes java_run_script),
      ("gson-2.11.0.jar", gson_jar) ]
  ("", jsonDumps (.vdict input_data), some (base64Encode archive))
/-- Compile script bundled for C++ submissions (code_generator.py lines
912–914). -/
def cpp_compile_script : String :=
  "#!/bin/bash\n/usr/local/gcc-9.2.0/bin/g++ -std=c++14 -I. main.cpp -o main\n"
/-- Run script bundled for C++ submissions (code_generator.py lines
917–919). -/
def cpp_run_script : String := "#!/bin/bash\n./main\n"
/-- Condensed model of the `main.cpp` text assembled by
`_generate_cpp_wrapper` (code_generator.py lines 700–909), analogous to
`java_main_source`: nlohmann/json include, helper structs when needed,
the user's code, and a `main` that parses stdin JSON, calls the solution
and prints the JSON result.  The literal C++ template text is condensed
here — no claim observes it. -/
def cpp_main_source (user_code : String) (sig : FunctionSig) : String :=
  "#include <iostream>\n#include \"json.hpp\"\nusing json = nlohmann::json;\n" ++
    (if needs_listnode sig then
      "struct ListNode \x7b int val; ListNode *next; \x7d;\n" else ("")) ++
    (if needs_treenode sig then
      "struct TreeNode \x7b int val; TreeNode *left; TreeNode *right; \x7d;\n" else ("")) ++
    user_code ++
    "\nint main() \x7b /* parse " ++
    ", ".intercalate (sig.arguments.map (fun a => a.1)) ++
    "; cout << json(solution." ++ sig.function_name ++ "(...)) */ \x7d\n"
/-- Model of `CodeGenerator._generate_cpp_wrapper` (code_generator.py lines
700–943): bundles `main.cpp`, compile and run scripts and `json.hpp`
(read from disk — a parameter of the model) into a base64-encoded zip;
the returned source code is the empty string. -/
def generate_cpp_wrapper (json_hpp : List Nat) (user_code : String) (sig : FunctionSig)
    (input_data : List (String × PyVal)) : String × String × Option String :=
  let archive := zipArchive
    [ ("main.cpp", strBytes (cpp_main_source user_code sig)),
      ("compile", strBytes cpp_compile_script),
      ("run", strBytes cpp_run_script),
      ("json.hpp", json_hpp) ]
  ("", jsonDumps (.vdict input_data), some (base64Encode archive))
/-- Model of `CodeGenerator.generate_wrapper` (code_generator.py lines 82–112).
`LanguageEnum` is a `str` enum, so comparison with a member is plain
string comparison; the language is therefore modelled as a `String`, and
a value outside the four members reaches the final `raise
ValueError(f"Unsupported language: ...")`, modelled as `Except.error`.
The GSON jar and `json.hpp` bytes, read from disk by the Java/C++
branches, are parameters of the model. -/
def generate_wrapper (gson_jar json_hpp : List Nat) (language user_code : String)
    (sig : FunctionSig) (input_data : List (String × PyVal)) :
    Except String (String × String × Option String) :=
  if language = "python" then
    .ok (generate_python_wrapper user_code sig input_data)
  else if language = "javascript" then
    .ok (generate_javascript_wrapper user_code sig input_data)
  else if language = "java" then
    .ok (generate_java_wrapper gson_jar user_code sig input_data)
  else if language = "cpp" then
    .ok (generate_cpp_wrapper json_hpp user_code sig input_data)
  else
    .error ("Unsupported language: " ++ language)
/-- Model of `CodeGenerator._get_python_template` (code_generator.py lines
1132–1151). -/
def get_python_template (sig : FunctionSig) : String :=
  let params := ", ".intercalate
    (sig.arguments.map (fun a => a.1 ++ ": " ++ mapped_type a.2 ("python")))
  "class Solution:\n    def " ++ sig.function_name ++ "(self, " ++ params ++
    ") -> " ++ mapped_type sig.return_type ("python") ++ ":\n        "
/-- Model of `CodeGenerator._get_javascript_template` (code_generator.py lines
1153–1163). -/
def get_javascript_template (sig : FunctionSig) : String :=
  let params := ", ".intercalate (sig.arguments.map (fun a => a.1))
  "var " ++ sig.function_name ++ " = function(" ++ params ++ ") \x7b\n    \n\x7d;"
/-- Model of `CodeGenerator._get_java_template` (code_generator.py lines
1165–1185). -/
def get_java_template (sig : FunctionSig) : String :=
  let params := ", ".intercalate
    (sig.arguments.map (fun a => mapped_type a.2 ("java") ++ " " ++ a.1))
  "class Solution \x7b\n    public " ++ mapped_type sig.return_type ("java") ++ " " ++
    sig.function_name ++ "(" ++ params ++ ") \x7b\n        \n    \x7d\n\x7d"
/-- Model of `CodeGenerator._get_cpp_template` (code_generator.py lines
1187–1208). -/
def get_cpp_template (sig : FunctionSig) : String :=
  let params := ", ".intercalate
    (sig.arguments.map (fun a => mapped_type a.2 ("cpp") ++ " " ++ a.1))
  "class Solution \x7b\npublic:\n    " ++ mapped_type sig.return_type ("cpp") ++ " " ++
    sig.function_name ++ "(" ++ params ++ ") \x7b\n        \n    \x7d\n\x7d;"
/-- Model of `CodeGenerator.get_template_code` (code_generator.py lines
1112–1130): per-language editor skeleton; any other language value
raises `ValueError(f"Unsupported language: ...")`. -/
def get_template_code (language : String) (sig : FunctionSig) : Except String String :=
  if language = "python" then .ok (get_python_template sig)
  else if language = "javascript" then .ok (get_javascript_template sig)
  else if language = "java" then .ok (get_java_template sig)
  else if language = "cpp" then .ok (get_cpp_template sig)
  else .error ("Unsupported language: " ++ language)
/-- Model of `CodeGenerator._get_python_helper_definitions` (code_generator.py
lines 983–1006). -/
def python_helper_definitions (ln tn : Bool) : String :=
  "\n".intercalate
    ((if ln then
        ["# Definition for singly-linked list.\n# class ListNode:\n#     def __init__(self, val=0, next=None):\n#         self.val = val\n#         self.next = next"]
      else []) ++
      (if tn then
        ["# Definition for a binary tree node.\n# class TreeNode:\n#     def __init__(self, val=0, left=None, right=None):\n#         self.val = val\n#         self.left = left\n#         self.right = right"]
      else []))
/-- Model of `CodeGenerator._get_javascript_helper_definitions` (code_generator.py
lines 1008–1035). -/
def javascript_helper_definitions (ln tn : Bool) : String :=
  "\n".intercalate
    ((if ln then
        ["/**\n * Definition for singly-linked list.\n * function ListNode(val, next) \x7b\n *     this.val = (val===undefined ? 0 : val)\n *     this.next = (next===undefined ? null : next)\n * \x7d\n */"]
      else []) ++
      (if tn then
        ["/**\n * Definition for a binary tree node.\n * function TreeNode(val, left, right) \x7b\n *     this.val = (val===undefined ? 0 : val)\n *     this.left = (left===undefined ? null : left)\n *     this.right = (right===undefined ? null : right)\n * \x7d\n */"]
      else []))
/-- Model of `CodeGenerator._get_java_helper_definitions` (code_generator.py
lines 1037–1074). -/
def java_helper_definitions (ln tn : Bool) : String :=
  "\n".intercalate
    ((if ln then
        ["/**\n * Definition for singly-linked list.\n * public class ListNode \x7b\n *     int val;\n *     ListNode next;\n *     ListNode() \x7b\x7d\n *     ListNode(int val) \x7b this.val = val; \x7d\n *     ListNode(int val, ListNode next) \x7b this.val = val; this.next = next; \x7d\n * \x7d\n */"]
      else []) ++
      (if tn then
        ["/**\n * Definition for a binary tree node.\n * public class TreeNode \x7b\n *     int val;\n *     TreeNode left;\n *     TreeNode right;\n *     TreeNode() \x7b\x7d\n *     TreeNode(int val) \x7b this.val = val; \x7d\n *     TreeNode(int val, TreeNode left, TreeNode right) \x7b\n *         this.val = val;\n *         this.left = left;\n *         this.right = right;\n *     \x7d\n * \x7d\n */"]
      else []))
/-- Model of `CodeGenerator._get_cpp_helper_definitions` (code_generator.py
lines 1076–1110). -/
def cpp_helper_definitions (ln tn : Bool) : String :=
  "\n".intercalate
    ((if ln then
        ["/**\n * Definition for singly-linked list.\n * struct ListNode \x7b\n *     int val;\n *     ListNode *next;\n *     ListNode() : val(0), next(nullptr) \x7b\x7d\n *     ListNode(int x) : val(x), next(nullptr) \x7b\x7d\n *     ListNode(int x, ListNode *next) : val(x), next(next) \x7b\x7d\n * \x7d;\n */"]
      else []) ++
      (if tn then
        ["/**\n * Definition for a binary tree node.\n * struct TreeNode \x7b\n *     int val;\n *     TreeNode *left;\n *     TreeNode *right;\n *     TreeNode() : val(0), left(nullptr), right(nullptr) \x7b\x7d\n *     TreeNode(int x) : val(x), left(nullptr), right(nullptr) \x7b\x7d\n *     TreeNode(int x, TreeNode *left, TreeNode *right) :\n *         val(x), left(left), right(right) \x7b\x7d\n * \x7d;\n */"]
      else []))
/-- Model of `CodeGenerator.get_helper_definitions` (code_generator.py lines
945–981).  Note the order of the checks in the source: when the
signature needs neither `ListNode` nor `TreeNode`, the empty string is
returned *before* the language dispatch, so an unsupported language
raises only when helper classes are needed. -/
def get_helper_definitions (language : String) (sig : FunctionSig) :
    Except String String :=
  let ln := needs_listnode sig
  let tn := needs_treenode sig
  if !ln && !tn then .ok ("")
  else if language = "python" then .ok (python_helper_definitions ln tn)
  else if language = "javascript" then .ok (javascript_helper_definitions ln tn)
  else if language = "java" then .ok (java_helper_definitions ln tn)
  else if language = "cpp" then .ok (cpp_helper_definitions ln tn)
  else .error ("Unsupported language: " ++ language)
/-- The service's `ExecutionStatus` enum (schemas.py). -/
inductive ExecutionStatus where
  | accepted
  | wrong_answer
  | time_limit_exceeded
  | memory_limit_exceeded
  | runtime_error
  | compilation_error
  | internal_error
  deriving DecidableEq, Repr
/-- A backend (`Judge0Result`) response as the service consumes it.
`time` is a decimal-seconds string in the wire format; the model carries
the rational it denotes (`none` for an absent or empty string — both are
falsy in the `if judge0_result.time:` check).  `memory` keeps Python int
truthiness: the service skips a reported `0`. -/
structure Judge0Result where
  stdout : Option String
  stderr : Option String
  compile_output : Option String
  status_id : Int
  time : Option Rat
  memory : Option Int
/-- Model of `Judge0Service._parse_status` (service.py lines 227–243): the fixed
id table; any unmapped id falls back to `internal_error`. -/
def parse_status (r : Judge0Result) : ExecutionStatus :=
  if r.status_id = 3 then .accepted
  else if r.status_id = 4 then .wrong_answer
  else if r.status_id = 5 then .time_limit_exceeded
  else if r.status_id = 6 then .compilation_error
  else if r.status_id = 7 then .runtime_error
  else if r.status_id = 8 then .runtime_error
  else if r.status_id = 9 then .runtime_error
  else if r.status_id = 10 then .runtime_error
  else if r.status_id = 11 then .runtime_error
  else if r.status_id = 12 then .runtime_error
  else if r.status_id = 13 then .internal_error
  else if r.status_id = 14 then .internal_error
  else .internal_error
/-- One test case of a `CodeExecutionRequest` (schemas.py
`TestCaseInput`). -/
structure TestCaseInput where
  input_data : List (String × PyVal)
  expected_output : PyVal
  order_index : Int
/-- A `TestCaseResult` of the response (schemas.py). -/
structure TestCaseResult where
  order_index : Int
  input_data : List (String × PyVal)
  expected_output : PyVal
  actual_output : Option PyVal
  passed : Bool
  runtime_ms : Option Int
  memory_kb : Option Int
  status : ExecutionStatus
  error_message : Option String
  stdout : Option String
  stderr : Option String
/-- A `CodeExecutionRequest` (schemas.py).  The pydantic schema puts no
bound on `time_limit`, so any float — including `0.0` — is a valid
caller-supplied value. -/
structure CodeExecutionRequest where
  language : String
  source_code : String
  test_cases : List TestCaseInput
  time_limit : Option Rat
  memory_limit : Option Int
  function_signature : Option FunctionSig
/-- A `CodeExecutionResponse` (schemas.py). -/
structure CodeExecutionResponse where
  language : String
  total_test_cases : Nat
  passed_test_cases : Nat
  results : List TestCaseResult
  overall_passed : Bool
  avg_runtime_ms : Option Int
  avg_memory_kb : Option Int
  compilation_error : Option String
/-- The body of a `POST /submissions` request (schemas.py
`Judge0SubmissionRequest`). -/
structure Judge0SubmissionRequest where
  source_code : String
  language_id : Int
  stdin : Option String
  expected_output : Option String
  cpu_time_limit : Option Rat
  memory_limit : Option Int
  wall_time_limit : Option Rat
  additional_files : Option String
/-- The `LANGUAGE_IDS` table (service.py lines 31–36). -/
def LANGUAGE_IDS (language : String) : Option Int :=
  if language = "python" then some 71
  else if language = "javascript" then some 63
  else if language = "java" then some 89
  else if language = "cpp" then some 89
  else none
/-- Python `x or d` on an optional float: `None` and `0.0` are falsy. -/
def pyOrRat (x : Option Rat) (d : Rat) : Rat :=
  match x with
  | some v => if v = 0 then d else v
  | none => d
/-- Python `x or d` on an optional int: `None` and `0` are falsy. -/
def pyOrInt (x : Option Int) (d : Int) : Int :=
  match x with
  | some v => if v = 0 then d else v
  | none => d
/-- The submission body built by `Judge0Service.submit_code` (service.py
lines 165–190): CPU limit `time_limit or default`, memory
`memory_limit or default`, and wall-clock limit
`(time_limit or default) * 2` — derived, never supplied. -/
def submit_code (default_time_limit : Rat) (default_memory_limit : Int)
    (language_id : Int) (source_code stdin : String)
    (expected_output : Option String) (time_limit : Option Rat)
    (memory_limit : Option Int) (additional_files : Option String) :
    Judge0SubmissionRequest :=
  { source_code := source_code
    language_id := language_id
    stdin := some stdin
    expected_output := expected_output
    cpu_time_limit := some (pyOrRat time_limit default_time_limit)
    memory_limit := some (pyOrInt memory_limit default_memory_limit)
    wall_time_limit := some (pyOrRat time_limit default_time_limit * 2)
    additional_files := additional_files }
/-- Python `int()` applied to an exact rational: truncation toward
zero (the float rounding of `int(float(...) * 1000)` and
`int(total / runs)` is modelled as exact rational arithmetic). -/
def pyTrunc (q : Rat) : Int := q.num.tdiv (q.den : Int)
/-- Truthiness of `judge0_result.stdout and judge0_result.stdout.strip()`:
a present, non-empty string whose stripped form is non-empty. -/
def stdoutReady (o : Option String) : Bool :=
  match o with
  | none => false
  | some s => !(s == "") && !(pyStrip s == "")
/-- Truthiness of `judge0_result.stderr and judge0_result.stderr.strip()`. -/
def stderrReady (o : Option String) : Bool :=
  match o with
  | none => false
  | some s => !(s == "") && !(pyStrip s == "")
/-- Python `a or d` on an optional string: `None` and `""` are falsy. -/
def pyOrStr (a : Option String) (d : String) : String :=
  match a with
  | some s => if s = "" then d else s
  | none => d
/-- The compilation-error message (service.py lines 293–295):
`compile_output or stderr or "Compilation failed"`. -/
def ceMessage (r : Judge0Result) : String :=
  pyOrStr r.compile_output (pyOrStr r.stderr ("Compilation failed"))
/-- The `TestCaseResult` built for every test case once a compilation
error is observed (service.py lines 297–308): no output, failed, status
`compilation_error`, the compilation message as error; the unset fields
keep their schema defaults (`None`). -/
def ceResult (msg : String) (tc : TestCaseInput) : TestCaseResult :=
  { order_index := tc.order_index
    input_data := tc.input_data
    expected_output := tc.expected_output
    actual_output := none
    passed := false
    runtime_ms := none
    memory_kb := none
    status := .compilation_error
    error_message := some msg
    stdout := none
    stderr := none }
/-- The `TestCaseResult` built when the per-case processing raises
(service.py lines 365–377): status `internal_error`, the exception text
as error message. -/
def exnResult (msg : String) (tc : TestCaseInput) : TestCaseResult :=
  { order_index := tc.order_index
    input_data := tc.input_data
    expected_output := tc.expected_output
    actual_output := none
    passed := false
    runtime_ms := none
    memory_kb := none
    status := .internal_error
    error_message := some msg
    stdout := none
    stderr := none }
/-- The `TestCaseResult` built on the normal path (service.py lines
311–363): when stdout is non-empty after stripping, the output is
decoded (JSON if possible, stripped text otherwise), the service runs
its own comparison and overrides the backend status with
`accepted`/`wrong_answer`; otherwise the mapped backend status stands
and `passed` stays false.  Stderr becomes the error message only for a
non-passing case; runtime is `int(float(time) * 1000)` when a time was
reported, memory is kept when a non-zero memory was reported. -/
def mkNormalResult (tc : TestCaseInput) (r : Judge0Result) : TestCaseResult :=
  let hasOut := stdoutReady r.stdout
  let outText := pyStrip (r.stdout.getD (""))
  let actual_output : Option PyVal :=
    if hasOut then
      match jsonLoads outText with
      | some v => some v
      | none => some (.vstr outText)
    else none
  let passed :=
    if hasOut then compare_outputs (r.stdout.getD ("")) tc.expected_output else false
  let status :=
    if hasOut then (if passed then .accepted else .wrong_answer)
    else parse_status r
  let error_message := if !passed && stderrReady r.stderr then r.stderr else none
  let runtime_ms : Option Int :=
    match r.time with
    | some t => some (pyTrunc (t * 1000))
    | none => none
  let memory_kb : Option Int :=
    match r.memory with
    | some m => if m = 0 then none else some m
    | none => none
  { order_index := tc.order_index
    input_data := tc.input_data
    expected_output := tc.expected_output
    actual_output := actual_output
    passed := passed
    runtime_ms := runtime_ms
    memory_kb := memory_kb
    status := status
    error_message := error_message
    stdout := r.stdout
    stderr := r.stderr }
/-- What the backend interaction yields for one test case: a parsed
`Judge0Result`, or an exception raised anywhere in the per-case `try`
block (code generation, submission, polling, `TimeoutError`, malformed
payload) — caught by the `except Exception` handler. -/
inductive BackendOutcome where
  | ok (r : Judge0Result)
  | exn (msg : String)
/-- Mutable state of the `execute_code` loop (service.py lines
260–264): accumulated results, the compilation error once observed, and
the runtime/memory accumulators.  `successful_runs` counts the cases
whose backend result reported a time — it is the only counter, also used
as the denominator of the memory average. -/
structure ExecState where
  results : List TestCaseResult
  compilation_error : Option String
  total_runtime : Int
  total_memory : Int
  successful_runs : Nat
/-- The `for test_case in request.test_cases` loop of
`Judge0Service.execute_code` (service.py lines 266–377), with the
backend modelled as a map from the test case's position to its outcome.
On a result mapped to `compilation_error`, the handler appends one
`compilation_error` result for *every* test case of the request (the
source iterates `request.test_cases`, not the remaining cases) and
breaks.  On the normal path the accumulators advance by the recorded
result's own `runtime_ms`/`memory_kb` (exactly the amounts the source
adds, since those fields are set iff the source accumulates). -/
def exec_loop (backend : Nat → BackendOutcome) (allCases : List TestCaseInput) :
    Nat → List TestCaseInput → ExecState → ExecState
  | _, [], st => st
  | idx, tc :: rest, st =>
    match backend idx with
    | .exn msg =>
      exec_loop backend allCases (idx + 1) rest
        { st with results := st.results ++ [exnResult msg tc] }
    | .ok r =>
      if parse_status r = .compilation_error then
        let msg := ceMessage r
        { st with
          compilation_error := some msg
          results := st.results ++ allCases.map (ceResult msg) }
      else
        let res := mkNormalResult tc r
        exec_loop backend allCases (idx + 1) rest
          { st with
            results := st.results ++ [res]
            total_runtime := st.total_runtime + (res.runtime_ms.getD 0)
            total_memory := st.total_memory + (res.memory_kb.getD 0)
            successful_runs :=
              st.successful_runs + (if res.runtime_ms.isSome then 1 else 0) }
/-- Model of `Judge0Service.execute_code` (service.py lines 255–393): run the
loop from the empty state, then the summary: pass count, overall pass
(`passed_count == len(test_cases)`), and the averages — both divided by
`successful_runs`, the count of time-reporting cases, and both absent
when that count is zero. -/
def execute_code (backend : Nat → BackendOutcome)
    (request : CodeExecutionRequest) : CodeExecutionResponse :=
  let st := exec_loop backend request.test_cases 0 request.test_cases
    ⟨[], none, 0, 0, 0⟩
  let passed_count := (st.results.filter (fun r => r.passed)).length
  { language := request.language
    total_test_cases := request.test_cases.length
    passed_test_cases := passed_count
    results := st.results
    overall_passed := passed_count == request.test_cases.length
    avg_runtime_ms :=
      if st.successful_runs > 0 then
        some (pyTrunc ((st.total_runtime : Rat) / (st.successful_runs : Rat)))
      else none
    avg_memory_kb :=
      if st.successful_runs > 0 then
        some (pyTrunc ((st.total_memory : Rat) / (st.successful_runs : Rat)))
      else none
    compilation_error := st.compilation_error }
/-- Sum of the reported runtimes among a result list. -/
def sumRuntime (rs : List TestCaseResult) : Int :=
  (rs.filterMap (fun r => r.runtime_ms)).sum
/-- Number of results that report a runtime. -/
def cntRuntime (rs : List TestCaseResult) : Nat :=
  (rs.filterMap (fun r => r.runtime_ms)).length
/-- Sum of the reported memory readings among a result list. -/
def sumMemory (rs : List TestCaseResult) : Int :=
  (rs.filterMap (fun r => r.memory_kb)).sum

theorem chl_map_some (f : List TreeNode) : chl (f.map some) = kids f := by
  simp only [chl, kids, List.map_map]
  have hfun : (chlOf ∘ some) = fun n : TreeNode => [n.left, n.right] := by
    funext n; rfl
  rw [hfun]

theorem chl_eq_kids_filterMap (q : List (Option TreeNode)) :
    chl q = kids (q.filterMap id) := by
  induction q with
  | nil => rfl
  | cons o t ih => cases o <;> simp [chl, kids, chlOf, ih] <;> simp [chl, kids] at ih <;> simp [ih]

theorem ents_length (q : List (Option TreeNode)) : (ents q).length = q.length := by
  simp [ents]

theorem kids_length (f : List TreeNode) : (kids f).length = 2 * f.length := by
  induction f with
  | nil => rfl
  | cons n t ih => simp [kids] at ih ⊢; omega

theorem bfsSer_nil : bfsSer [] = [] := by simp [bfsSer]

theorem bfsSer_cons_none (q : List (Option TreeNode)) :
    bfsSer (none :: q) = none :: bfsSer q := by simp [bfsSer]

theorem bfsSer_cons_some (v : Option Int) (l r : Option TreeNode)
    (q : List (Option TreeNode)) :
    bfsSer (some (TreeNode.mk v l r) :: q) = v :: bfsSer (q ++ [l, r]) := by
  simp [bfsSer]
/-- Draining the queue `q₁ ++ q₂` first emits the entries of `q₁`, with
the children pushed by `q₁` queued behind `q₂`. -/
theorem bfsSer_split (q₁ : List (Option TreeNode)) :
    ∀ q₂, bfsSer (q₁ ++ q₂) = ents q₁ ++ bfsSer (q₂ ++ chl q₁) := by
  induction q₁ with
  | nil => intro q₂; simp [ents, chl]
  | cons o t ih =>
    intro q₂
    cases o with
    | none =>
      simp only [List.cons_append, bfsSer_cons_none, ih]
      simp [ents, chl, chlOf, entOf]
    | some n =>
      cases n with
      | mk v l r =>
        simp only [List.cons_append, bfsSer_cons_some]
        rw [List.append_assoc, ih (q₂ ++ [l, r])]
        simp [ents, chl, chlOf, entOf, TreeNode.val, List.append_assoc]
/-- Level-order serialization, one level at a time: the current queue's
entries followed by the serialization of the pushed children. -/
theorem bfsSer_level (q : List (Option TreeNode)) :
    bfsSer q = ents q ++ bfsSer (chl q) := by
  have h := bfsSer_split q []
  simpa using h

theorem wOpt_pos (o : Option TreeNode) : 1 ≤ wOpt o := by
  cases o with
  | none => simp [wOpt]
  | some n => cases n; simp [wOpt]; omega

theorem fW_eq (f : List TreeNode) : fW f = f.length + qWeight (kids f) := by
  induction f with
  | nil => rfl
  | cons n t ih =>
    cases n with
    | mk v l r =>
      simp [fW, kids, qWeight, wOpt] at ih ⊢
      omega

theorem fW_filterMap_le (q : List (Option TreeNode)) :
    fW (q.filterMap id) ≤ qWeight q := by
  induction q with
  | nil => simp [fW, qWeight]
  | cons o t ih =>
    cases o <;> simp [fW, qWeight, wOpt] at ih ⊢ <;> omega

theorem allInt_dest {o : Option TreeNode} (h : AllInt o) :
    o = none ∨ ∃ v l r, o = some (TreeNode.mk (some v) l r) ∧ AllInt l ∧ AllInt r := by
  cases h with
  | none => exact Or.inl rfl
  | node v l r hl hr => exact Or.inr ⟨v, l, r, rfl, hl, hr⟩

theorem allInt_kids (f : List TreeNode) (h : ∀ t ∈ f, AllInt (some t)) :
    ∀ o ∈ kids f, AllInt o := by
  induction f with
  | nil => simp [kids]
  | cons n t ih =>
    have hn := h n (by simp)
    rcases allInt_dest hn with h0 | ⟨v, l, r, he, hl, hr⟩
    · exact absurd h0 (by simp)
    · intro o ho
      simp [kids] at ho
      obtain rfl : n = TreeNode.mk (some v) l r := by
        have := he
        simpa using this
      rcases ho with ho | ho | ho
      · simp only [ho, TreeNode.left]; exact hl
      · simp only [ho, TreeNode.right]; exact hr
      · exact ih (fun t ht => h t (by simp [ht])) o (by simp [kids, ho])

theorem filter_ents (q : List (Option TreeNode)) (h : ∀ o ∈ q, AllInt o) :
    (ents q).filter Option.isSome = (q.filterMap id).map TreeNode.val := by
  induction q with
  | nil => rfl
  | cons o t ih =>
    have hih := ih (fun x hx => h x (by simp [hx]))
    rcases allInt_dest (h o (by simp)) with rfl | ⟨v, l, r, rfl, _, _⟩
    · simpa [ents, entOf] using hih
    · simpa [ents, entOf, TreeNode.val] using hih

theorem buildLevels_nil (s : List (Option Int)) : buildLevels [] s = [] := by
  simp [buildLevels]

theorem buildLevels_cons (v : Option Int) (vs s : List (Option Int)) :
    buildLevels (v :: vs) s =
      attachChildren (v :: vs) (s.take (2 * (v :: vs).length))
        (buildLevels ((s.take (2 * (v :: vs).length)).filter Option.isSome)
          (s.drop (2 * (v :: vs).length))) := by
  rw [buildLevels]
/-- Lemma: `attachChildren` reconstructs a forest of int-valued nodes exactly
from its child entries and the list of its rebuilt child subtrees. -/
theorem attach_exact (f : List TreeNode) (h : ∀ t ∈ f, AllInt (some t)) :
    attachChildren (f.map TreeNode.val) (ents (kids f)) ((kids f).filterMap id) = f := by
  induction f with
  | nil => rfl
  | cons n t ih =>
    have hn := h n (by simp)
    cases hn with
    | node v l r hl hr =>
      have hih := ih (fun x hx => h x (by simp [hx]))
      rcases allInt_dest hl with rfl | ⟨lv, ll, lr, rfl, _, _⟩ <;>
        rcases allInt_dest hr with rfl | ⟨rv, rl, rr, rfl, _, _⟩ <;>
        simp [kids, ents, entOf, attachChildren, pickChild, TreeNode.val] at hih ⊢ <;>
        simp [hih]
/-- Decoding the serialization of an int-valued forest's children, with
the forest's node values pending, rebuilds exactly that forest. -/
theorem buildLevels_kids : ∀ (N : Nat) (f : List TreeNode), fW f ≤ N →
    (∀ t ∈ f, AllInt (some t)) →
    buildLevels (f.map TreeNode.val) (bfsSer (kids f)) = f := by
  intro N
  induction N with
  | zero =>
    intro f hw _
    cases f with
    | nil => simp [kids, bfsSer_nil, buildLevels_nil]
    | cons n t =>
      exfalso
      have h1 := wOpt_pos (some n)
      simp [fW] at hw
      omega
  | succ N ih =>
    intro f hw hall
    cases f with
    | nil => simp [kids, bfsSer_nil, buildLevels_nil]
    | cons n t =>
      have hsplit : bfsSer (kids (n :: t)) =
          ents (kids (n :: t)) ++ bfsSer (kids ((kids (n :: t)).filterMap id)) := by
        rw [bfsSer_level, chl_eq_kids_filterMap]
      have hlen : (ents (kids (n :: t))).length = 2 * ((n :: t).map TreeNode.val).length := by
        simp [ents_length, kids_length]
      have htake : (bfsSer (kids (n :: t))).take (2 * ((n :: t).map TreeNode.val).length) =
          ents (kids (n :: t)) := by
        rw [hsplit]
        exact List.take_left' hlen
      have hdrop : (bfsSer (kids (n :: t))).drop (2 * ((n :: t).map TreeNode.val).length) =
          bfsSer (kids ((kids (n :: t)).filterMap id)) := by
        rw [hsplit]
        exact List.drop_left' hlen
      have hkall : ∀ o ∈ kids (n :: t), AllInt o := allInt_kids (n :: t) hall
      have hfil : (ents (kids (n :: t))).filter Option.isSome =
          ((kids (n :: t)).filterMap id).map TreeNode.val :=
        filter_ents (kids (n :: t)) hkall
      have hall2 : ∀ t' ∈ (kids (n :: t)).filterMap id, AllInt (some t') := by
        intro t' ht'
        have hmem : some t' ∈ kids (n :: t) := by
          rcases List.mem_filterMap.mp ht' with ⟨a, ha, hae⟩
          have ha2 : a = some t' := hae
          rw [ha2] at ha
          exact ha
        exact hkall _ hmem
      have hW : fW ((kids (n :: t)).filterMap id) ≤ N := by
        have h2 := fW_filterMap_le (kids (n :: t))
        have h3 := fW_eq (n :: t)
        have h4 : 1 ≤ (n :: t).length := by simp
        omega
      have hrec := ih ((kids (n :: t)).filterMap id) hW hall2
      calc buildLevels ((n :: t).map TreeNode.val) (bfsSer (kids (n :: t)))
          = attachChildren ((n :: t).map TreeNode.val)
              (ents (kids (n :: t)))
              (buildLevels (((kids (n :: t)).filterMap id).map TreeNode.val)
                (bfsSer (kids ((kids (n :: t)).filterMap id)))) := by
            rw [List.map_cons, buildLevels_cons, ← List.map_cons TreeNode.val n t,
              htake, hdrop, hfil]
        _ = n :: t := by rw [hrec]; exact attach_exact (n :: t) hall

theorem headD_replicate (j : Nat) :
    (List.replicate j (none : Option Int)).headD none = none := by
  cases j <;> simp [List.replicate_succ]

theorem head?_getD_replicate (j : Nat) :
    (List.replicate j (none : Option Int)).head?.getD none = none := by
  cases j <;> simp [List.replicate_succ]
/-- Padding the encoding with trailing `None` markers does not change
how children are attached: a missing entry already behaves as `None`. -/
theorem attach_pad : ∀ (vals enc : List (Option Int)) (j : Nat) (ts : List TreeNode),
    attachChildren vals (enc ++ List.replicate j none) ts =
      attachChildren vals enc ts := by
  intro vals
  induction vals with
  | nil => intro enc j ts; rfl
  | cons v vs ih =>
    intro enc j ts
    match enc with
    | [] =>
      have h2 : ∀ jj, (List.replicate jj (none : Option Int)).drop 2 =
          List.replicate (jj - 2) none := by
        intro jj; rw [List.drop_replicate]
      have h1 : ∀ jj, (List.replicate jj (none : Option Int)).drop 1 =
          List.replicate (jj - 1) none := by
        intro jj; rw [List.drop_replicate]
      simp only [List.nil_append, attachChildren, h1, h2, headD_replicate,
        pickChild]
      have := ih [] (j - 2) ts
      simp only [List.nil_append] at this
      simp [this, pickChild]
    | [e] =>
      have h1 : ([e] ++ List.replicate j (none : Option Int)).drop 1 =
          List.replicate j none := by simp
      have h2 : ([e] ++ List.replicate j (none : Option Int)).drop 2 =
          List.replicate (j - 1) none := by
        simp [List.drop_replicate]
      have hthis := ih [] (j - 1)
      simp only [List.nil_append] at hthis
      cases e <;>
        simp [attachChildren, pickChild, h1, h2, headD_replicate,
          head?_getD_replicate, hthis]
    | e₁ :: e₂ :: tl =>
      simp only [List.cons_append, attachChildren, List.headD_cons, List.drop_succ_cons,
        List.drop_zero]
      rw [ih tl j]
/-- Padding the stream with trailing `None` markers does not change the
decoded forest. -/
theorem buildLevels_pad : ∀ (N : Nat) (vals s : List (Option Int)) (m : Nat),
    s.length + vals.length ≤ N →
    buildLevels vals (s ++ List.replicate m none) = buildLevels vals s := by
  intro N
  induction N with
  | zero =>
    intro vals s m h
    cases vals with
    | nil => simp [buildLevels_nil]
    | cons v vs => simp at h
  | succ N ih =>
    intro vals s m h
    cases vals with
    | nil => simp [buildLevels_nil]
    | cons v vs =>
      rw [buildLevels_cons, buildLevels_cons]
      have htake : (s ++ List.replicate m none).take (2 * (v :: vs).length) =
          s.take (2 * (v :: vs).length) ++
            List.replicate (min (2 * (v :: vs).length - s.length) m) none := by
        rw [List.take_append_eq_append_take, List.take_replicate]
      have hdrop : (s ++ List.replicate m none).drop (2 * (v :: vs).length) =
          s.drop (2 * (v :: vs).length) ++
            List.replicate (m - (2 * (v :: vs).length - s.length)) none := by
        rw [List.drop_append_eq_append_drop, List.drop_replicate]
      have hfil : (s.take (2 * (v :: vs).length) ++
            List.replicate (min (2 * (v :: vs).length - s.length) m) none).filter
              Option.isSome =
          (s.take (2 * (v :: vs).length)).filter Option.isSome := by
        rw [List.filter_append]
        simp [List.filter_replicate]
      have hbound : (s.drop (2 * (v :: vs).length)).length +
          ((s.take (2 * (v :: vs).length)).filter Option.isSome).length ≤ N := by
        have h1 : ((s.take (2 * (v :: vs).length)).filter Option.isSome).length ≤
            (s.take (2 * (v :: vs).length)).length := List.length_filter_le _ _
        have h2 : (s.take (2 * (v :: vs).length)).length =
            min (2 * (v :: vs).length) s.length := List.length_take _ _
        have h3 : (s.drop (2 * (v :: vs).length)).length =
            s.length - 2 * (v :: vs).length := List.length_drop _ _
        have h4 : (v :: vs).length = vs.length + 1 := by simp
        omega
      rw [htake, hdrop, hfil, attach_pad]
      rw [ih _ _ _ hbound]
/-- Every list of optional values is its trailing-`None`-trimmed form
followed by some number of `None` markers. -/
theorem rtrim_pad (s : List (Option Int)) :
    ∃ m, s = rtrimNone s ++ List.replicate m none := by
  refine ⟨(s.reverse.takeWhile Option.isNone).length, ?_⟩
  have hsplit : s.reverse.takeWhile Option.isNone ++ s.reverse.dropWhile Option.isNone =
      s.reverse := List.takeWhile_append_dropWhile Option.isNone s.reverse
  have hrep : s.reverse.takeWhile Option.isNone =
      List.replicate (s.reverse.takeWhile Option.isNone).length (none : Option Int) := by
    rw [List.eq_replicate_iff]
    refine ⟨rfl, ?_⟩
    intro b hb
    have hp := List.mem_takeWhile_imp hb
    exact Option.isNone_iff_eq_none.mp hp
  calc s = s.reverse.reverse := by rw [List.reverse_reverse]
    _ = (s.reverse.takeWhile Option.isNone ++ s.reverse.dropWhile Option.isNone).reverse := by
        rw [hsplit]
    _ = (s.reverse.dropWhile Option.isNone).reverse ++
          (s.reverse.takeWhile Option.isNone).reverse := by
        rw [List.reverse_append]
    _ = rtrimNone s ++ List.replicate (s.reverse.takeWhile Option.isNone).length none := by
        rw [rtrimNone]
        congr 1
        rw [hrep, List.reverse_replicate, List.length_replicate]
/-- Trimming trailing `None` markers keeps a leading non-`None` entry. -/
theorem rtrim_cons_some (a : Int) (l : List (Option Int)) :
    rtrimNone (some a :: l) = some a :: rtrimNone l := by
  unfold rtrimNone
  rw [List.reverse_cons, List.dropWhile_append]
  have hd : List.dropWhile Option.isNone [some a] = [some a] := by
    simp [List.dropWhile]
  by_cases hc : (l.reverse.dropWhile Option.isNone).isEmpty
  · rw [if_pos hc, hd]
    have hnil : l.reverse.dropWhile Option.isNone = [] := by
      simpa [List.isEmpty_iff] using hc
    rw [hnil]
    rfl
  · rw [if_neg hc, List.reverse_append]
    rfl
/-- Decode-after-encode identity on int-valued trees: the emitted
`array_to_treenode` applied to the emitted `treenode_to_array` of any
tree whose nodes all store integers returns that tree. -/
theorem tree_decode_encode (t : Option TreeNode) (ht : AllInt t) :
    array_to_treenode (treenode_to_array t) = t := by
  rcases allInt_dest ht with rfl | ⟨v, l, r, rfl, hl, hr⟩
  · rfl
  · have hroot : ∀ x ∈ [TreeNode.mk (some v) l r], AllInt (some x) := by
      intro x hx
      simp at hx
      subst hx
      exact AllInt.node v l r hl hr
    have hkids : kids [TreeNode.mk (some v) l r] = [l, r] := by
      simp [kids]
    have hser : bfsSer [some (TreeNode.mk (some v) l r)] =
        some v :: bfsSer (kids [TreeNode.mk (some v) l r]) := by
      rw [bfsSer_cons_some, hkids]
      simp
    have h2 : buildLevels [some v] (bfsSer (kids [TreeNode.mk (some v) l r])) =
        [TreeNode.mk (some v) l r] := by
      have := buildLevels_kids (fW [TreeNode.mk (some v) l r])
        [TreeNode.mk (some v) l r] le_rfl hroot
      simpa using this
    obtain ⟨m, hm⟩ := rtrim_pad (bfsSer (kids [TreeNode.mk (some v) l r]))
    have hp := buildLevels_pad
      ((rtrimNone (bfsSer (kids [TreeNode.mk (some v) l r]))).length + 1)
      [some v] (rtrimNone (bfsSer (kids [TreeNode.mk (some v) l r]))) m (by simp)
    rw [← hm] at hp
    have h3 : buildLevels [some v]
        (rtrimNone (bfsSer (kids [TreeNode.mk (some v) l r]))) =
        [TreeNode.mk (some v) l r] := by
      rw [← hp, h2]
    show array_to_treenode (rtrimNone (bfsSer [some (TreeNode.mk (some v) l r)])) = _
    rw [hser, rtrim_cons_some]
    simp only [array_to_treenode, h3, List.headD_cons]
/-- List round trip: encoding then decoding any integer array through
the emitted linked-list helpers is the identity. -/
theorem list_roundtrip (a : List Int) :
    listnode_to_array (array_to_listnode a) = a := by
  induction a with
  | nil => simp [array_to_listnode, listnode_to_array]
  | cons v rest ih => simp [array_to_listnode, listnode_to_array, ih]

theorem sumRuntime_append (a b : List TestCaseResult) :
    sumRuntime (a ++ b) = sumRuntime a + sumRuntime b := by
  simp [sumRuntime]

theorem cntRuntime_append (a b : List TestCaseResult) :
    cntRuntime (a ++ b) = cntRuntime a + cntRuntime b := by
  simp [cntRuntime]

theorem sumMemory_append (a b : List TestCaseResult) :
    sumMemory (a ++ b) = sumMemory a + sumMemory b := by
  simp [sumMemory]

theorem ce_block_no_runtime (msg : String) (cs : List TestCaseInput) :
    (cs.map (ceResult msg)).filterMap (fun r => r.runtime_ms) = [] := by
  induction cs with
  | nil => rfl
  | cons c t ih => simp [ceResult, ih]

theorem ce_block_no_memory (msg : String) (cs : List TestCaseInput) :
    (cs.map (ceResult msg)).filterMap (fun r => r.memory_kb) = [] := by
  induction cs with
  | nil => rfl
  | cons c t ih => simp [ceResult, ih]

theorem stats_ce_block (msg : String) (cs : List TestCaseInput) :
    sumRuntime (cs.map (ceResult msg)) = 0 ∧
    cntRuntime (cs.map (ceResult msg)) = 0 ∧
    sumMemory (cs.map (ceResult msg)) = 0 := by
  refine ⟨?_, ?_, ?_⟩
  · rw [sumRuntime, ce_block_no_runtime]; rfl
  · rw [cntRuntime, ce_block_no_runtime]; rfl
  · rw [sumMemory, ce_block_no_memory]; rfl
/-- The loop's accumulators always equal the statistics computable from
its recorded results: `total_runtime` is the sum of recorded runtimes,
`successful_runs` their count, `total_memory` the sum of recorded
memory readings. -/
theorem exec_loop_stats (backend : Nat → BackendOutcome)
    (allCases : List TestCaseInput) :
    ∀ (rem : List TestCaseInput) (idx : Nat) (st : ExecState),
    st.total_runtime = sumRuntime st.results →
    st.successful_runs = cntRuntime st.results →
    st.total_memory = sumMemory st.results →
    (exec_loop backend allCases idx rem st).total_runtime =
        sumRuntime (exec_loop backend allCases idx rem st).results ∧
      (exec_loop backend allCases idx rem st).successful_runs =
        cntRuntime (exec_loop backend allCases idx rem st).results ∧
      (exec_loop backend allCases idx rem st).total_memory =
        sumMemory (exec_loop backend allCases idx rem st).results := by
  intro rem
  induction rem with
  | nil => intro idx st h1 h2 h3; exact ⟨h1, h2, h3⟩
  | cons tc rest ih =>
    intro idx st h1 h2 h3
    simp only [exec_loop]
    cases hb : backend idx with
    | exn msg =>
      apply ih
      · simp [sumRuntime_append, sumRuntime, exnResult, h1]
      · simp [cntRuntime_append, cntRuntime, exnResult, h2]
      · simp [sumMemory_append, sumMemory, exnResult, h3]
    | ok r =>
      by_cases hce : parse_status r = .compilation_error
      · obtain ⟨hs1, hs2, hs3⟩ := stats_ce_block (ceMessage r) allCases
        simp [hce, sumRuntime_append, cntRuntime_append, sumMemory_append,
          hs1, hs2, hs3, h1, h2, h3]
      · simp only [hce, if_neg, ite_false]
        apply ih
        · cases hrt : (mkNormalResult tc r).runtime_ms <;>
            simp [sumRuntime_append, sumRuntime, hrt, h1]
        · cases hrt : (mkNormalResult tc r).runtime_ms <;>
            simp [cntRuntime_append, cntRuntime, hrt, h2]
        · cases hm : (mkNormalResult tc r).memory_kb <;>
            simp [sumMemory_append, sumMemory, hm, h3]
/-- Once the loop reports a compilation error, its result list is
whatever was recorded before the error followed by one
`compilation_error` entry per test case of the whole request, and the
pre-error block is strictly shorter than the remaining-case list it was
built from. -/
theorem exec_loop_ce (backend : Nat → BackendOutcome)
    (allCases : List TestCaseInput) :
    ∀ (rem : List TestCaseInput) (idx : Nat) (st : ExecState) (ce : String),
    st.compilation_error = none →
    (exec_loop backend allCases idx rem st).compilation_error = some ce →
    ∃ mid, (exec_loop backend allCases idx rem st).results =
        st.results ++ mid ++ allCases.map (ceResult ce) ∧
      mid.length + 1 ≤ rem.length := by
  intro rem
  induction rem with
  | nil =>
    intro idx st ce h0 hce
    simp only [exec_loop] at hce
    rw [h0] at hce
    exact absurd hce (by simp)
  | cons tc rest ih =>
    intro idx st ce h0 hce
    simp only [exec_loop] at hce ⊢
    cases hb : backend idx with
    | exn msg =>
      rw [hb] at hce
      obtain ⟨mid, hres, hlen⟩ := ih (idx + 1)
        { st with results := st.results ++ [exnResult msg tc] } ce h0 hce
      refine ⟨exnResult msg tc :: mid, ?_, ?_⟩
      · simpa [List.append_assoc] using hres
      · simpa using Nat.succ_le_succ hlen
    | ok r =>
      rw [hb] at hce
      by_cases hcs : parse_status r = .compilation_error
      · simp only [hcs, if_pos, ite_true] at hce ⊢
        have hmsg : ceMessage r = ce := by
          simpa using hce
        refine ⟨[], ?_, ?_⟩
        · simp [hmsg]
        · simp
      · simp only [hcs, ite_false] at hce ⊢
        obtain ⟨mid, hres, hlen⟩ := ih (idx + 1)
          { st with
            results := st.results ++ [mkNormalResult tc r]
            total_runtime :=
              st.total_runtime + ((mkNormalResult tc r).runtime_ms.getD 0)
            total_memory :=
              st.total_memory + ((mkNormalResult tc r).memory_kb.getD 0)
            successful_runs :=
              st.successful_runs +
                (if (mkNormalResult tc r).runtime_ms.isSome then 1 else 0) }
          ce h0 hce
        refine ⟨mkNormalResult tc r :: mid, ?_, ?_⟩
        · simpa [List.append_assoc] using hres
        · simpa using Nat.succ_le_succ hlen

theorem ce_block_none_passed (msg : String) (cs : List TestCaseInput) :
    (cs.map (ceResult msg)).filter (fun r => r.passed) = [] := by
  induction cs with
  | nil => rfl
  | cons c t ih => simp [ceResult, ih]

theorem str_ne_empty_of_append (s t : String) (h : t ≠ "") : s ++ t ≠ "" := by
  intro he
  apply h
  have hlen := congrArg String.length he
  rw [String.length_append] at hlen
  have ht : t.length = 0 := by
    have h0 : ("" : String).length = 0 := rfl
    omega
  cases t with
  | mk data =>
    cases data with
    | nil => rfl
    | cons c cs => simp [String.length] at ht
/-- C1 (amended).  If `execute_code` reports a compilation error, its
result list is the results recorded from backend responses seen before
the error, followed by one entry per test case of the whole request
(covering also test cases never individually submitted); every entry of
that appended block has status `compilation_error` and `passed = false`,
and `overall_passed` is false.  (The claim as frozen also asserted that
the earlier-recorded results themselves are compilation_error entries;
the counterexample shows they are retained unchanged.) -/
theorem execute_code_ce_marks_all (backend : Nat → BackendOutcome)
    (request : CodeExecutionRequest) (ce : String)
    (hce : (execute_code backend request).compilation_error = some ce) :
    ∃ pre,
      (execute_code backend request).results =
        pre ++ request.test_cases.map (ceResult ce) ∧
      pre.length < request.test_cases.length ∧
      (∀ r ∈ request.test_cases.map (ceResult ce),
        r.status = ExecutionStatus.compilation_error ∧ r.passed = false) ∧
      (execute_code backend request).overall_passed = false := by
  have hce' : (exec_loop backend request.test_cases 0 request.test_cases
      ⟨[], none, 0, 0, 0⟩).compilation_error = some ce := hce
  obtain ⟨mid, hres, hlen⟩ := exec_loop_ce backend request.test_cases
    request.test_cases 0 ⟨[], none, 0, 0, 0⟩ ce rfl hce'
  have hres' : (exec_loop backend request.test_cases 0 request.test_cases
      ⟨[], none, 0, 0, 0⟩).results =
      mid ++ request.test_cases.map (ceResult ce) := by
    simpa using hres
  refine ⟨mid, ?_, ?_, ?_, ?_⟩
  · exact hres'
  · omega
  · intro r hr
    rcases List.mem_map.mp hr with ⟨tc, _, rfl⟩
    exact ⟨rfl, rfl⟩
  · show (((exec_loop backend request.test_cases 0 request.test_cases
        ⟨[], none, 0, 0, 0⟩).results.filter (fun r => r.passed)).length ==
        request.test_cases.length) = false
    rw [hres', List.filter_append, List.length_append, ce_block_none_passed]
    have hmid : ((mid.filter (fun r => r.passed)).length) ≤ mid.length :=
      List.length_filter_le _ _
    rw [beq_eq_false_iff_ne]
    simp only [List.length_nil]
    omega
/-- C1 witness: the amended theorem applied to a concrete two-case
request whose second backend response is a compilation error. -/
theorem execute_code_ce_marks_all_witness :
    (execute_code
      (fun i => if i = 0 then
        .ok ⟨some ("1"), none, none, 3, none, none⟩
      else
        .ok ⟨none, none, some ("boom"), 6, none, none⟩)
      ⟨"python", "code", [⟨[], .vint 1, 0⟩, ⟨[], .vint 1, 1⟩], none, none, none⟩).overall_passed
      = false := by
  obtain ⟨pre, _, _, _, h4⟩ := execute_code_ce_marks_all
    (fun i => if i = 0 then
      .ok ⟨some ("1"), none, none, 3, none, none⟩
    else
      .ok ⟨none, none, some ("boom"), 6, none, none⟩)
    ⟨"python", "code", [⟨[], .vint 1, 0⟩, ⟨[], .vint 1, 1⟩], none, none, none⟩
    "boom" (by rfl)
  exact h4
/-- C1 counterexample: a request whose first test case passes and whose
second backend response is a compilation error yields a summary with
`compilation_error` set whose first result is still `accepted` with
`passed = true` — not every result of the summary is a
compilation-error entry. -/
theorem execute_code_ce_counterexample :
    ((execute_code
      (fun i => if i = 0 then
        .ok ⟨some ("1"), none, none, 3, none, none⟩
      else
        .ok ⟨none, none, some ("boom"), 6, none, none⟩)
      ⟨"python", "code", [⟨[], .vint 1, 0⟩, ⟨[], .vint 1, 1⟩], none, none, none⟩).compilation_error
        = some ("boom")) ∧
    ((execute_code
      (fun i => if i = 0 then
        .ok ⟨some ("1"), none, none, 3, none, none⟩
      else
        .ok ⟨none, none, some ("boom"), 6, none, none⟩)
      ⟨"python", "code", [⟨[], .vint 1, 0⟩, ⟨[], .vint 1, 1⟩], none, none, none⟩).results.map
        (fun r => r.passed) = [true, false, false]) ∧
    ((execute_code
      (fun i => if i = 0 then
        .ok ⟨some ("1"), none, none, 3, none, none⟩
      else
        .ok ⟨none, none, some ("boom"), 6, none, none⟩)
      ⟨"python", "code", [⟨[], .vint 1, 0⟩, ⟨[], .vint 1, 1⟩], none, none, none⟩).results.map
        (fun r => r.status) =
      [ExecutionStatus.accepted, ExecutionStatus.compilation_error,
        ExecutionStatus.compilation_error]) := by
  refine ⟨rfl, rfl, rfl⟩
/-- C2 (amended).  In every summary, `avg_runtime_ms` is the truncated
mean of the recorded runtimes over exactly the test cases whose backend
result reported a time — cases without timing data are excluded from
the denominator, not zero-padded.  `avg_memory_kb`, however, is the
*sum* of the reported memory readings divided by that same
time-reporting count: the loop keeps a single `successful_runs`
counter, incremented only for time-reporting cases, and uses it as both
denominators; a case reporting memory but no time enlarges the memory
numerator without enlarging the denominator, and both averages are
absent whenever no case reported a time.  (The claim as frozen asserted
an independent memory denominator; the counterexample refutes it.) -/
theorem execute_code_avg_denominators (backend : Nat → BackendOutcome)
    (request : CodeExecutionRequest) :
    ((execute_code backend request).avg_runtime_ms =
      if 0 < cntRuntime (execute_code backend request).results then
        some (pyTrunc ((sumRuntime (execute_code backend request).results : Rat) /
          (cntRuntime (execute_code backend request).results : Rat)))
      else none) ∧
    ((execute_code backend request).avg_memory_kb =
      if 0 < cntRuntime (execute_code backend request).results then
        some (pyTrunc ((sumMemory (execute_code backend request).results : Rat) /
          (cntRuntime (execute_code backend request).results : Rat)))
      else none) := by
  obtain ⟨h1, h2, h3⟩ := exec_loop_stats backend request.test_cases
    request.test_cases 0 ⟨[], none, 0, 0, 0⟩ rfl rfl rfl
  constructor
  · show (if 0 < (exec_loop backend request.test_cases 0 request.test_cases
        ⟨[], none, 0, 0, 0⟩).successful_runs then _ else none) = _
    rw [h1, h2]
    rfl
  · show (if 0 < (exec_loop backend request.test_cases 0 request.test_cases
        ⟨[], none, 0, 0, 0⟩).successful_runs then _ else none) = _
    rw [h2, h3]
    rfl
/-- C2 counterexample: a single test case whose backend result reports
memory (512 KB) but no time.  The memory-reporting cases have mean 512,
yet the summary's `avg_memory_kb` is absent, because the denominator
counter only counts time-reporting cases (here zero). -/
theorem execute_code_avg_counterexample :
    ((execute_code (fun _ => .ok ⟨some ("5"), none, none, 3, none, some 512⟩)
      ⟨"python", "code", [⟨[], .vint 5, 0⟩], none, none, none⟩).results.filterMap
        (fun r => r.memory_kb) = [512]) ∧
    ((execute_code (fun _ => .ok ⟨some ("5"), none, none, 3, none, some 512⟩)
      ⟨"python", "code", [⟨[], .vint 5, 0⟩], none, none, none⟩).avg_memory_kb
      = none) := by
  exact ⟨rfl, rfl⟩
/-- C8 (amended).  Every submission body built by `submit_code` carries
a wall-clock limit equal to exactly twice the CPU limit it carries —
the wall-clock limit is derived, never independently supplied — and the
effective CPU limit is the caller-supplied `time_limit` when that is
present *and non-zero*, and the configured default otherwise (Python's
`or` treats a supplied `0.0` as absent, which is what the
counterexample exhibits against the claim as frozen). -/
theorem submit_code_wall_clock (dt : Rat) (dm : Int) (lid : Int)
    (src stdin : String) (eo : Option String) (tl : Option Rat)
    (ml : Option Int) (af : Option String) :
    ((submit_code dt dm lid src stdin eo tl ml af).wall_time_limit =
      some (pyOrRat tl dt * 2)) ∧
    ((submit_code dt dm lid src stdin eo tl ml af).cpu_time_limit =
      some (pyOrRat tl dt)) ∧
    (pyOrRat tl dt = match tl with
      | some t => if t = 0 then dt else t
      | none => dt) := by
  exact ⟨rfl, rfl, rfl⟩
/-- C8 counterexample: with a caller-supplied `time_limit` of `0.0` and
a configured default of `5.0`, the submission's CPU limit is the
default `5.0` (not the supplied `0.0`) and its wall-clock limit is
`10.0`, which is not twice the supplied value. -/
theorem submit_code_zero_time_counterexample :
    ((submit_code 5 128000 71 ("src") "in" none (some 0) none none).cpu_time_limit
      = some 5) ∧
    ((submit_code 5 128000 71 ("src") "in" none (some 0) none none).wall_time_limit
      = some 10) ∧
    ((10 : Rat) ≠ 2 * 0) := by
  refine ⟨by norm_num [submit_code, pyOrRat], by norm_num [submit_code, pyOrRat], by norm_num⟩
/-- C9.  On the normal (non-compilation-error) path, whenever the
backend result's stdout is non-empty after stripping, the recorded
result's `passed` is exactly the service's own output comparison and
its status is exactly `accepted` or `wrong_answer` accordingly — the
mapped backend status (runtime_error, time_limit_exceeded,
internal_error, …) is overridden.  `mkNormalResult` is precisely the
record `execute_code`'s loop appends for such a backend result. -/
theorem result_status_override (tc : TestCaseInput) (r : Judge0Result)
    (hnc : parse_status r ≠ ExecutionStatus.compilation_error)
    (hout : stdoutReady r.stdout = true) :
    ((mkNormalResult tc r).passed =
      compare_outputs (r.stdout.getD ("")) tc.expected_output) ∧
    ((mkNormalResult tc r).status =
      if compare_outputs (r.stdout.getD ("")) tc.expected_output then
        ExecutionStatus.accepted
      else ExecutionStatus.wrong_answer) := by
  constructor
  · simp [mkNormalResult, hout]
  · simp [mkNormalResult, hout]
/-- C9 witness: a backend result mapped to `runtime_error` (status id
11) whose stdout `"7\n"` matches the expected output `7` is recorded as
`accepted` with `passed = true`. -/
theorem result_status_override_witness :
    (parse_status ⟨some ("7\n"), some ("NZEC"), none, 11, none, none⟩ ≠
      ExecutionStatus.compilation_error) ∧
    (stdoutReady (some ("7\n")) = true) ∧
    ((mkNormalResult ⟨[], .vint 7, 0⟩
        ⟨some ("7\n"), some ("NZEC"), none, 11, none, none⟩).passed =
      compare_outputs ("7\n") (.vint 7)) ∧
    ((mkNormalResult ⟨[], .vint 7, 0⟩
        ⟨some ("7\n"), some ("NZEC"), none, 11, none, none⟩).status =
      ExecutionStatus.accepted) ∧
    ((mkNormalResult ⟨[], .vint 7, 0⟩
        ⟨some ("7\n"), some ("NZEC"), none, 11, none, none⟩).passed = true) := by
  have h := result_status_override ⟨[], .vint 7, 0⟩
    ⟨some ("7\n"), some ("NZEC"), none, 11, none, none⟩ (by decide) (by rfl)
  exact ⟨by decide, rfl, h.1, rfl, rfl⟩
/-- C10.  `execute_code` on a request with no test cases returns the
vacuous summary: zero totals, empty results, `overall_passed = true`
(`0 == 0`), and absent averages and compilation error. -/
theorem execute_code_empty_request (backend : Nat → BackendOutcome)
    (lang src : String) (tl : Option Rat) (ml : Option Int)
    (fs : Option FunctionSig) :
    execute_code backend ⟨lang, src, [], tl, ml, fs⟩ =
      ⟨lang, 0, 0, [], true, none, none, none⟩ := rfl
/-- C4.  `_compare_outputs`: structural comparison after JSON decoding
(`"[0, 1]\n"` matches `[0, 1]` up to whitespace), trimmed-string
fallback when decoding fails (`"not json"` matches the string
`"not json"`), order-sensitive structural mismatch (`"[0,1]"` vs
`[1, 0]` is false); and the function is total — for every pair of
inputs it returns a boolean, an undecodable actual output degrading to
a trimmed string comparison against the `str()` form of the expected
value instead of raising. -/
theorem compare_outputs_examples_and_fallback :
    (compare_outputs ("[0, 1]\n") (.vlist [.vint 0, .vint 1]) = true) ∧
    (compare_outputs ("not json") (.vstr ("not json")) = true) ∧
    (compare_outputs ("[0,1]") (.vlist [.vint 1, .vint 0]) = false) ∧
    (∀ (actual : String) (expected : PyVal),
      jsonLoads (pyStrip actual) = none →
      compare_outputs actual expected =
        (pyStrip actual == pyStrip (pyStrTop expected))) := by
  refine ⟨rfl, rfl, rfl, ?_⟩
  intro actual expected h
  simp [compare_outputs, h]
/-- C4 witness: the fallback clause applied at a concrete undecodable
output. -/
theorem compare_outputs_fallback_witness :
    compare_outputs ("oops") (.vint 3) =
      (pyStrip ("oops") == pyStrip (pyStrTop (.vint 3))) :=
  compare_outputs_examples_and_fallback.2.2.2 ("oops") (.vint 3) rfl
/-- C5.  The emitted conversion pairs round-trip: for every integer
array, `array_to_listnode` then `listnode_to_array` is the identity
(the empty array maps to a `None` head and back); and for every
level-order tree encoding with explicit `null` missing-child markers
and no trailing markers — i.e. every array in the image of
`treenode_to_array` on integer-valued trees — `array_to_treenode`
followed by `treenode_to_array` returns the original array
unchanged. -/
theorem conversion_roundtrips :
    (∀ a : List Int, listnode_to_array (array_to_listnode a) = a) ∧
    (∀ a : List (Option Int),
      (∃ t, AllInt t ∧ treenode_to_array t = a) →
      treenode_to_array (array_to_treenode a) = a) := by
  constructor
  · exact list_roundtrip
  · rintro a ⟨t, ht, rfl⟩
    rw [tree_decode_encode t ht]
/-- C5 witness: the tree round trip applied to the concrete encoding
`[1, null, 2]` of the tree with root `1` and right child `2`. -/
theorem conversion_roundtrips_witness :
    treenode_to_array (array_to_treenode [some 1, none, some 2]) =
      [some 1, none, some 2] := by
  refine conversion_roundtrips.2 [some 1, none, some 2]
    ⟨some (.mk (some 1) none (some (.mk (some 2) none none))), ?_, ?_⟩
  · exact AllInt.node 1 none (some (.mk (some 2) none none)) AllInt.none
      (AllInt.node 2 none none AllInt.none AllInt.none)
  · simp [treenode_to_array, bfsSer, rtrimNone]
/-- C6.  Decoding `[1, null, 2, null, null]` and re-encoding yields
`[1, null, 2]`: the serialization is level order with explicit `null`
markers for missing children, and only trailing markers are trimmed —
the internal marker between `1` and `2` is preserved. -/
theorem treenode_to_array_trailing_trim :
    treenode_to_array (array_to_treenode [some 1, none, some 2, none, none]) =
      [some 1, none, some 2] := by
  simp [array_to_treenode, treenode_to_array, buildLevels, attachChildren,
    pickChild, bfsSer, rtrimNone]
/-- C7.  The shape of `generate_wrapper`'s output is a function of the
language alone, never of the signature: `python` and `javascript`
always yield a non-empty wrapper source and no archive; `java` and
`cpp` always yield an empty source and a base64 archive payload. -/
theorem generate_wrapper_shape (gson_jar json_hpp : List Nat)
    (user : String) (sig : FunctionSig) (input : List (String × PyVal)) :
    (∃ w stdin, generate_wrapper gson_jar json_hpp ("python") user sig input =
        .ok (w, stdin, none) ∧ w ≠ "") ∧
    (∃ w stdin, generate_wrapper gson_jar json_hpp ("javascript") user sig input =
        .ok (w, stdin, none) ∧ w ≠ "") ∧
    (∃ stdin arch, generate_wrapper gson_jar json_hpp ("java") user sig input =
        .ok ("", stdin, some arch)) ∧
    (∃ stdin arch, generate_wrapper gson_jar json_hpp ("cpp") user sig input =
        .ok ("", stdin, some arch)) := by
  refine ⟨⟨(generate_python_wrapper user sig input).1, jsonDumps (.vdict input),
      rfl, ?_⟩,
    ⟨(generate_javascript_wrapper user sig input).1, jsonDumps (.vdict input),
      rfl, ?_⟩,
    ⟨jsonDumps (.vdict input), base64Encode (zipArchive
      [ ("Main.java", strBytes (java_main_source user sig)),
        ("compile", strBytes java_compile_script),
        ("run", strBytes java_run_script),
        ("gson-2.11.0.jar", gson_jar) ]), rfl⟩,
    ⟨jsonDumps (.vdict input), base64Encode (zipArchive
      [ ("main.cpp", strBytes (cpp_main_source user sig)),
        ("compile", strBytes cpp_compile_script),
        ("run", strBytes cpp_run_script),
        ("json.hpp", json_hpp) ]), rfl⟩⟩
  · exact str_ne_empty_of_append _ ("\n    print(json.dumps(result))\n") (by decide)
  · exact str_ne_empty_of_append _ ("\nconsole.log(JSON.stringify(result));\n") (by decide)
/-- C3 (amended).  For every language value outside the fixed
four-member set, `generate_wrapper` and `get_template_code` always fail
with the explicit `Unsupported language` error, for every signature;
`get_helper_definitions` fails with that error whenever the signature
requires the `ListNode`/`TreeNode` helper classes, but — because the
source returns before its language dispatch when no helper class is
needed — succeeds with the empty string for helper-free signatures
instead of failing.  (The claim as frozen demanded failure from all
three entry points unconditionally; the counterexample refutes it for
`get_helper_definitions`.) -/
theorem unsupported_language_rejected (lang : String) (gson_jar json_hpp : List Nat)
    (user : String) (sig : FunctionSig) (input : List (String × PyVal))
    (h1 : lang ≠ "python") (h2 : lang ≠ "javascript") (h3 : lang ≠ "java")
    (h4 : lang ≠ "cpp") :
    (generate_wrapper gson_jar json_hpp lang user sig input =
      .error ("Unsupported language: " ++ lang)) ∧
    (get_template_code lang sig = .error ("Unsupported language: " ++ lang)) ∧
    ((needs_listnode sig || needs_treenode sig) = true →
      get_helper_definitions lang sig =
        .error ("Unsupported language: " ++ lang)) ∧
    ((needs_listnode sig || needs_treenode sig) = false →
      get_helper_definitions lang sig = .ok ("")) := by
  refine ⟨?_, ?_, ?_, ?_⟩
  · simp [generate_wrapper, h1, h2, h3, h4]
  · simp [get_template_code, h1, h2, h3, h4]
  · intro hneed
    cases hln : needs_listnode sig <;> cases htn : needs_treenode sig <;>
      simp_all [get_helper_definitions]
  · intro hnone
    cases hln : needs_listnode sig <;> cases htn : needs_treenode sig <;>
      simp_all [get_helper_definitions]
/-- C3 witness: the amended theorem applied at the unsupported language
`"ruby"` with a helper-needing signature. -/
theorem unsupported_language_rejected_witness :
    (generate_wrapper [] [] "ruby" "code" ⟨"f", [("root", "TreeNode")], "void"⟩ [] =
      .error ("Unsupported language: " ++ "ruby")) ∧
    (get_template_code ("ruby") ⟨"f", [("root", "TreeNode")], "void"⟩ =
      .error ("Unsupported language: " ++ "ruby")) ∧
    (get_helper_definitions ("ruby") ⟨"f", [("root", "TreeNode")], "void"⟩ =
      .error ("Unsupported language: " ++ "ruby")) := by
  have h := unsupported_language_rejected ("ruby") [] [] "code"
    ⟨"f", [("root", "TreeNode")], "void"⟩ [] (by decide) (by decide) (by decide)
    (by decide)
  exact ⟨h.1, h.2.1, h.2.2.1 (by rfl)⟩
/-- C3 counterexample: for the unsupported language `"ruby"` and a
signature needing no helper classes, `get_helper_definitions` returns
the empty string instead of failing — the unsupported-language error is
not raised by every entry point. -/
theorem get_helper_definitions_no_error_counterexample :
    get_helper_definitions ("ruby") ⟨"add", [("x", "int")], "int"⟩ = .ok ("") := rfl
